import Mathlib

/-!
Formal model of the block-server match-result subsystem.

This file is a shallow embedding, in Lean 4, of the Go code in
`go/items/match_result.go` and the helpers it calls
(`go/items/items.go`, `go/items/progression.go`, the `PendingWrites`
batching layer, `PrepareExperience` / `PrepareLevelRewards` /
`PrepareRewardItems`, and the daily-match counter).  Pure Go functions
become Lean functions; stateful code becomes explicit state passing over
a `ServerState` record that models the Nakama object store (collection,
owner, key → value) and the wallet ledger (owner, currency → balance).
Go `int`/`int64` values are modelled as `Int` (no claim in this
development depends on fixed-width overflow).  Go `time.Now().UnixMilli()`
becomes an explicit `now : Int` parameter.  Infrastructure failures of
the backing store (read/write/commit errors) are outside the model: the
modelled store always answers, which corresponds to the non-error
branches of the Go code.

Modelling conventions, stated once:
* JSON (un)marshalling of typed records is modelled by a `StorageValue`
  sum type; `json.Unmarshal` failure corresponds to reading a value of
  the wrong variant, which the typed readers map to `none` (absent),
  exactly as the Go code treats unmarshal failures on these paths.
* Go float64 arithmetic appears only in the diminishing-XP multiplier
  (`1.0, 0.8, 0.6, 0.4, 0.25`); it is modelled by exact integer
  arithmetic with truncation toward zero.  No claim below depends on the
  last-bit behaviour of the float computation.
* Go `map` iteration order (unspecified) is modelled by a fixed order;
  no property below is sensitive to that order.
* Random identifiers (lootbox IDs, reward IDs) are modelled by a
  deterministic function of the inputs; no property below inspects them.
-/

/-! ## Constants (match_result.go, daily_drops.go, player_inventory.go) -/

def minMatchDurationMs : Int := 10000
def minRateLimitMs : Int := 15000
def maxMatchDurationMs : Int := 600000
def maxRoundsPerMatch : Int := 10

def storageCollectionMatchHistory : String := "match_history"
def storageKeyLastMatch : String := "last_match"
def storageCollectionActiveMatch : String := "active_match"
def storageKeyCurrentMatch : String := "current"
def storageCollectionResults : String := "match_results"
def storageCollectionLootboxes : String := "lootboxes"
def storageCollectionProgression : String := "progression"
def storageCollectionInventory : String := "inventory"
def storageCollectionDrops : String := "drops"
def storageKeyDailyMatches : String := "daily_matches"

def walletKeyDropsLeft : String := "dropsLeft"
def walletKeyRoundTokens : String := "roundTokens"

def storageKeyPet : String := "pets"
def storageKeyClass : String := "classes"
def storageKeyBackground : String := "backgrounds"
def storageKeyPieceStyle : String := "piece_styles"

def ProgressionKeyPet : String := "pet_"
def ProgressionKeyClass : String := "class_"
def ProgressionKeyPlayer : String := "player_"

def CategoryPet : String := "pet"
def CategoryClass : String := "class"

/-! ## Data model -/

/-- `MatchHistory` record (match_result.go). -/
structure MatchHistory where
  LastMatchTime : Int
deriving Repr, DecidableEq

/-- `ActiveMatch` record (match_result.go).  An empty `OpponentID`
means a solo match, exactly as in the Go code. -/
structure ActiveMatch where
  MatchID : String
  StartTime : Int
  OpponentID : String
deriving Repr, DecidableEq

/-- `MatchResultRecord` (match_result.go): a player's claimed result,
used by the consensus protocol. -/
structure MatchResultRecord where
  UserID : String
  ClaimedWin : Bool
  Score : Int
  SubmittedAt : Int
  Resolved : Bool
deriving Repr, DecidableEq

/-- One entry of the per-round history of a match-result request.  The
struct definition is not present under src/ (only its uses in
match_result.go are); fields and types are read off those uses:
`r.RoundNumber` (int), `r.PlayerWon` (bool), `r.DurationSec` (int). -/
structure RoundResult where
  RoundNumber : Int
  PlayerWon : Bool
  DurationSec : Int
deriving Repr, DecidableEq

/-- `MatchResultRequest` as used by the current match_result.go
(`req.MatchID`, `req.Won`, `req.FinalScore`, `req.RoundsWon`,
`req.RoundsLost`, `req.Rounds`, `req.EquippedPetID`,
`req.EquippedClassID`). -/
structure MatchResultRequest where
  MatchID : String
  Won : Bool
  FinalScore : Int
  RoundsWon : Int
  RoundsLost : Int
  Rounds : List RoundResult
  EquippedPetID : Nat
  EquippedClassID : Nat
deriving Repr, DecidableEq

/-- `NotifyMatchStartRequest` (match_result.go). -/
structure NotifyMatchStartRequest where
  MatchID : String
  OpponentID : String
deriving Repr, DecidableEq

/-- `ItemProgression` (player_inventory.go).  The OCC `Version` token is
not modelled: commit conflicts are infrastructure failures outside the
model. -/
structure ItemProgression where
  Level : Int
  Exp : Int
  EquippedAbility : Int
  EquippedSprite : Int
  AbilitiesUnlocked : Int
  SpritesUnlocked : Int
  BackgroundsUnlocked : Int
  PieceStylesUnlocked : Int
deriving Repr, DecidableEq

/-- `InitializeProgression` default record (progression.go). -/
def defaultProgression : ItemProgression :=
  { Level := 1, Exp := 0, EquippedAbility := 0, EquippedSprite := 0,
    AbilitiesUnlocked := 1, SpritesUnlocked := 1,
    BackgroundsUnlocked := 0, PieceStylesUnlocked := 0 }

/-- `Lootbox` (lootbox.go). -/
structure Lootbox where
  ID : String
  Tier : String
  CreatedAt : Int
  Opened : Bool
deriving Repr, DecidableEq

/-- `dailyMatches` record (daily drops file). -/
structure DailyMatches where
  Count : Int
  ResetUnix : Int
deriving Repr, DecidableEq

/-- One per-level reward entry of a level tree (types.go).  The Go
fields are decimal strings with `""` meaning unset; we model each field
as `Option Nat` (`none` = the empty string).  Unparsable strings cannot
be represented, matching well-formed embedded game data. -/
structure LevelRewardCfg where
  Gold : Option Nat
  Gems : Option Nat
  Abilities : Option Nat
  Backgrounds : Option Nat
  PieceStyles : Option Nat
  Sprites : Option Nat
deriving Repr, DecidableEq

/-- `LevelTree` (types.go).  `Rewards` is keyed by level number (the Go
map is keyed by the decimal string of the level, looked up via
`strconv.Itoa`). -/
structure LevelTree where
  MaxLevel : Int
  BaseXP : Int
  LevelThresholds : List Int
  Rewards : List (Int × LevelRewardCfg)
deriving Repr, DecidableEq

/-- `Pet` (types.go); only the fields the modelled code reads. -/
structure Pet where
  SpriteCount : Int
  AbilityIDs : List Nat
  BackgroundIDs : List Nat
  StyleIDs : List Nat
  LevelTreeName : String
deriving Repr, DecidableEq

/-- `Class` (types.go); structurally identical to `Pet`, kept separate
as in the source.  Named `ClassItem` here because `Class` is taken by
Mathlib. -/
structure ClassItem where
  SpriteCount : Int
  AbilityIDs : List Nat
  BackgroundIDs : List Nat
  StyleIDs : List Nat
  LevelTreeName : String
deriving Repr, DecidableEq

/-- `GameDataStuct` (types.go, name as in the source): the loaded game
data, modelled as an explicit argument instead of the Go global. -/
structure GameDataStuct where
  Pets : List (Nat × Pet)
  Classes : List (Nat × ClassItem)
  Backgrounds : List Nat
  PieceStyles : List Nat
  LevelTrees : List (String × LevelTree)
deriving Repr, DecidableEq

/-- `MatchConfig` (match_result.go, current token-economy version). -/
structure MatchConfig where
  WinXP : Int
  LossXP : Int
  TokensPerRoundWin : Int
  TokensPerRoundLoss : Int
  TokensPerSoloRound : Int
  TokenExchangeThresh : Int
  TokenRoundCap : Int
deriving Repr, DecidableEq

/-- `GetMatchConfig` default values (match_result.go). -/
def GetMatchConfig : MatchConfig :=
  { WinXP := 100, LossXP := 25, TokensPerRoundWin := 2,
    TokensPerRoundLoss := 1, TokensPerSoloRound := 1,
    TokenExchangeThresh := 6, TokenRoundCap := 3 }

/-- `LootboxConfig` (match_result.go). -/
structure LootboxConfig where
  MatchWinTier : String
  MatchLossTier : String
deriving Repr, DecidableEq

/-- `GetLootboxConfig` default values (match_result.go). -/
def GetLootboxConfig : LootboxConfig :=
  { MatchWinTier := "standard", MatchLossTier := "standard" }

/-! ## Game-data lookups (items.go) -/

def GetPet (gd : GameDataStuct) (id : Nat) : Option Pet :=
  (gd.Pets.find? (fun p => p.fst = id)).map Prod.snd

def GetClass (gd : GameDataStuct) (id : Nat) : Option ClassItem :=
  (gd.Classes.find? (fun p => p.fst = id)).map Prod.snd

def GetLevelTree (gd : GameDataStuct) (name : String) : Option LevelTree :=
  (gd.LevelTrees.find? (fun p => p.fst = name)).map Prod.snd

/-- `ValidateItemExists` (items.go): category keys are the storage keys
"pets", "classes", "backgrounds", "piece_styles"; any other category
(including "player") is `false`. -/
def ValidateItemExists (gd : GameDataStuct) (category : String) (id : Nat) : Bool :=
  if category = storageKeyPet then (GetPet gd id).isSome
  else if category = storageKeyClass then (GetClass gd id).isSome
  else if category = storageKeyBackground then gd.Backgrounds.contains id
  else if category = storageKeyPieceStyle then gd.PieceStyles.contains id
  else false

/-- Reward entry of a level tree for a given level
(`tree.Rewards[strconv.Itoa(level)]`). -/
def treeRewardAt (tree : LevelTree) (level : Int) : Option LevelRewardCfg :=
  (tree.Rewards.find? (fun p => p.fst = level)).map Prod.snd

/-- `tree.LevelThresholds[i]` with Go slice indexing; out-of-range
indexing would panic in Go and is totalised to 0 here (all theorems
that depend on thresholds carry well-formedness hypotheses instead). -/
def thresholdAt (tree : LevelTree) (i : Int) : Int :=
  tree.LevelThresholds.getD i.toNat 0

/-! ## Token economy: computeTokensEarned (match_result.go, pure) -/

/-- The pre-cap scoring part of `computeTokensEarned`: iterate the round
history honouring `TokenRoundCap` by round number, or fall back to the
aggregate won/lost counts trimmed (losses first) to the cap. -/
def tokensEarnedRaw (req : MatchResultRequest) (isSolo : Bool) (cfg : MatchConfig) : Int :=
  if req.Rounds.length > 0 then
    req.Rounds.foldl
      (fun acc r =>
        if r.RoundNumber < 1 ∨ r.RoundNumber > cfg.TokenRoundCap then acc
        else if isSolo then acc + cfg.TokensPerSoloRound
        else if r.PlayerWon then acc + cfg.TokensPerRoundWin
        else acc + cfg.TokensPerRoundLoss)
      0
  else
    let won := req.RoundsWon
    let lost := req.RoundsLost
    let trimmed :=
      if won + lost > cfg.TokenRoundCap then
        let excess := won + lost - cfg.TokenRoundCap
        if lost ≥ excess then (won, lost - excess)
        else
          let excess2 := excess - lost
          let won2 := won - excess2
          (if won2 < 0 then 0 else won2, 0)
      else (won, lost)
    if isSolo then (trimmed.fst + trimmed.snd) * cfg.TokensPerSoloRound
    else trimmed.fst * cfg.TokensPerRoundWin + trimmed.snd * cfg.TokensPerRoundLoss

/-- `computeTokensEarned` (match_result.go): raw score, then the
relative cap (all-wins clean sweep of the capped round count), then the
absolute cap (`maxRoundsPerMatch` rounds at the win rate). -/
def computeTokensEarned (req : MatchResultRequest) (isSolo : Bool) (cfg : MatchConfig) : Int :=
  let earned := tokensEarnedRaw req isSolo cfg
  let sweepMax := cfg.TokenRoundCap * cfg.TokensPerRoundWin
  let earned2 := if earned > sweepMax then sweepMax else earned
  let absMax := maxRoundsPerMatch * cfg.TokensPerRoundWin
  if earned2 > absMax then absMax else earned2

/-- C6: for every request, solo flag and configuration, the computed
token amount is at most the relative cap `TokenRoundCap ×
TokensPerRoundWin` and at most the absolute cap `maxRoundsPerMatch ×
TokensPerRoundWin`, regardless of the `Rounds` array contents and of
the aggregate counts when `Rounds` is empty. -/
theorem C6_token_caps (req : MatchResultRequest) (isSolo : Bool) (cfg : MatchConfig) :
    computeTokensEarned req isSolo cfg ≤ cfg.TokenRoundCap * cfg.TokensPerRoundWin ∧
    computeTokensEarned req isSolo cfg ≤ maxRoundsPerMatch * cfg.TokensPerRoundWin := by
  unfold computeTokensEarned
  generalize tokensEarnedRaw req isSolo cfg = e
  generalize cfg.TokenRoundCap * cfg.TokensPerRoundWin = S
  generalize hA : maxRoundsPerMatch * cfg.TokensPerRoundWin = A
  simp only []
  split_ifs <;> omega

/-! ## Object store and wallet ledger (Nakama boundary) -/

/-- Typed storage values: the model of marshalled JSON record payloads.
Marshalling is injective on these record types, so a sum type is a
faithful abstraction of the JSON strings stored by the Go code. -/
inductive StorageValue where
  | matchHistoryV (h : MatchHistory)
  | activeMatchV (a : ActiveMatch)
  | matchResultV (r : MatchResultRecord)
  | progressionV (p : ItemProgression)
  | inventoryV (items : List Nat)
  | lootboxV (lb : Lootbox)
  | dailyMatchesV (d : DailyMatches)
deriving Repr, DecidableEq

/-- The durable state: the object store keyed by (collection, owner,
key) and the wallet ledger keyed by (owner, currency). -/
structure ServerState where
  storage : String → String → String → Option StorageValue
  wallet : String → String → Int

def getObj (s : ServerState) (c u k : String) : Option StorageValue :=
  s.storage c u k

def setObj (s : ServerState) (c u k : String) (v : StorageValue) : ServerState :=
  { storage := fun c2 u2 k2 =>
      if c2 = c ∧ u2 = u ∧ k2 = k then some v else s.storage c2 u2 k2,
    wallet := s.wallet }

def delObj (s : ServerState) (c u k : String) : ServerState :=
  { storage := fun c2 u2 k2 =>
      if c2 = c ∧ u2 = u ∧ k2 = k then none else s.storage c2 u2 k2,
    wallet := s.wallet }

/-- Typed readers: a value of the wrong variant reads as `none`, which
is how the Go code treats `json.Unmarshal` failures on these paths. -/
def readMatchHistory (s : ServerState) (u : String) : Option MatchHistory :=
  match getObj s storageCollectionMatchHistory u storageKeyLastMatch with
  | some (.matchHistoryV h) => some h
  | _ => none

def readActiveMatch (s : ServerState) (u : String) : Option ActiveMatch :=
  match getObj s storageCollectionActiveMatch u storageKeyCurrentMatch with
  | some (.activeMatchV a) => some a
  | _ => none

/-- Consensus records are stored under key `matchID ++ "_" ++ userID`
owned by that user (match_result.go). -/
def resultKey (matchID userID : String) : String :=
  matchID ++ "_" ++ userID

def readMatchResult (s : ServerState) (matchID userID : String) : Option MatchResultRecord :=
  match getObj s storageCollectionResults userID (resultKey matchID userID) with
  | some (.matchResultV r) => some r
  | _ => none

def readProgression (s : ServerState) (u key : String) : Option ItemProgression :=
  match getObj s storageCollectionProgression u key with
  | some (.progressionV p) => some p
  | _ => none

def readDailyMatches (s : ServerState) (u : String) : Option DailyMatches :=
  match getObj s storageCollectionDrops u storageKeyDailyMatches with
  | some (.dailyMatchesV d) => some d
  | _ => none

def readInventory (s : ServerState) (u key : String) : Option (List Nat) :=
  match getObj s storageCollectionInventory u key with
  | some (.inventoryV items) => some items
  | _ => none

/-! ## PendingWrites (the batched write accumulator) -/

/-- `runtime.StorageWrite` restricted to the fields the model uses
(permissions and OCC versions do not affect the modelled semantics). -/
structure StorageWrite where
  Collection : String
  Key : String
  UserID : String
  Value : StorageValue
deriving Repr, DecidableEq

/-- `runtime.WalletUpdate`: a changeset of per-currency signed deltas.
The Go changeset is a `map[string]int64`; it is modelled as an
association list whose keys are distinct (every changeset the modelled
code builds is a literal with distinct keys). -/
structure WalletUpdate where
  UserID : String
  Changeset : List (String × Int)
deriving Repr, DecidableEq

/-- First-match lookup with default 0, the delta a changeset assigns to
a currency. -/
def changesetDelta (cs : List (String × Int)) (k : String) : Int :=
  match cs.find? (fun p => p.fst = k) with
  | some p => p.snd
  | none => 0

/-- `notify.ItemGrant`.  The Go field `Type` is renamed `TypeName`
(`Type` is reserved in Lean). -/
structure ItemGrant where
  ID : Nat
  TypeName : String
deriving Repr, DecidableEq

/-- `notify.InventoryDelta`. -/
structure InventoryDelta where
  Items : List ItemGrant
deriving Repr, DecidableEq

/-- `notify.WalletDelta`. -/
structure WalletDelta where
  Gold : Int
  Gems : Int
  Treats : Int
deriving Repr, DecidableEq

/-- `notify.ProgressionUnlock`. -/
structure ProgressionUnlock where
  System : String
  ItemID : Nat
  TypeName : String
  Count : Int
deriving Repr, DecidableEq

/-- `notify.ProgressionDelta`. -/
structure ProgressionDelta where
  XpGranted : Option Int
  XpBase : Option Int
  NewPlayerLevel : Option Int
  NewPetLevel : Option Int
  NewClassLevel : Option Int
  Unlocks : List ProgressionUnlock
deriving Repr, DecidableEq

/-- `notify.LootboxGrant`. -/
structure LootboxGrant where
  ID : String
  Tier : String
  Source : String
deriving Repr, DecidableEq

/-- `notify.RewardMeta`. -/
structure RewardMeta where
  DropsRemaining : Option Int
  NextDropRefresh : Option Int
  DailyMatches : Option Int
  RoundTokens : Option Int
  TokensEarned : Option Int
deriving Repr, DecidableEq

/-- `notify.RewardPayload`.  The random `RewardID` and the creation
timestamp are not modelled (nothing in the modelled code reads them). -/
structure RewardPayload where
  Source : String
  ReasonKey : String
  Action : String
  ActionPayload : String
  Inventory : Option InventoryDelta
  Wallet : Option WalletDelta
  Progression : Option ProgressionDelta
  Lootboxes : List LootboxGrant
  Meta : Option RewardMeta
deriving Repr, DecidableEq

/-- `notify.NewRewardPayload` (all reward domains empty). -/
def NewRewardPayload (source : String) : RewardPayload :=
  { Source := source, ReasonKey := "", Action := "", ActionPayload := "",
    Inventory := none, Wallet := none, Progression := none,
    Lootboxes := [], Meta := none }

/-- Empty `ProgressionDelta`. -/
def emptyProgressionDelta : ProgressionDelta :=
  { XpGranted := none, XpBase := none, NewPlayerLevel := none,
    NewPetLevel := none, NewClassLevel := none, Unlocks := [] }

/-- `PendingWrites` (the batched write accumulator). -/
structure PendingWrites where
  StorageWrites : List StorageWrite
  WalletUpdates : List WalletUpdate
  Payload : Option RewardPayload
deriving Repr, DecidableEq

/-- `NewPendingWrites`. -/
def NewPendingWrites : PendingWrites :=
  { StorageWrites := [], WalletUpdates := [], Payload := none }

/-- `AddStorageWrite`. -/
def addStorageWrite (pw : PendingWrites) (w : StorageWrite) : PendingWrites :=
  { pw with StorageWrites := pw.StorageWrites ++ [w] }

/-- `AddWalletUpdate`. -/
def addWalletUpdate (pw : PendingWrites) (userID : String) (changeset : List (String × Int)) : PendingWrites :=
  { pw with WalletUpdates := pw.WalletUpdates ++ [{ UserID := userID, Changeset := changeset }] }

/-- `MergePayload`: additive combination of a payload into an existing
one.  Wallet currency fields are summed, inventory items and unlock
lists are appended; XP and level fields are not touched. -/
def mergePayload (pa : Option RewardPayload) (other : RewardPayload) : RewardPayload :=
  let base := match pa with
    | none => NewRewardPayload ""
    | some p => p
  let base :=
    match other.Wallet with
    | none => base
    | some ow =>
      let bw := match base.Wallet with
        | none => ({ Gold := 0, Gems := 0, Treats := 0 } : WalletDelta)
        | some w => w
      { base with Wallet := some { Gold := bw.Gold + ow.Gold,
                                   Gems := bw.Gems + ow.Gems,
                                   Treats := bw.Treats + ow.Treats } }
  let base :=
    match other.Inventory with
    | none => base
    | some oi =>
      let bi := match base.Inventory with
        | none => ({ Items := [] } : InventoryDelta)
        | some i => i
      { base with Inventory := some { Items := bi.Items ++ oi.Items } }
  match other.Progression with
  | none => base
  | some op =>
    if op.Unlocks.length > 0 then
      let bp := match base.Progression with
        | none => emptyProgressionDelta
        | some p => p
      { base with Progression := some { bp with Unlocks := bp.Unlocks ++ op.Unlocks } }
    else base

/-- `PendingWrites.Merge` (part of the batching layer): storage writes
and wallet updates of the other batch are appended; the other payload
is adopted if none is set, otherwise merged additively. -/
def mergeWrites (pw other : PendingWrites) : PendingWrites :=
  let merged : PendingWrites :=
    { StorageWrites := pw.StorageWrites ++ other.StorageWrites,
      WalletUpdates := pw.WalletUpdates ++ other.WalletUpdates,
      Payload := pw.Payload }
  match other.Payload with
  | none => merged
  | some op =>
    match pw.Payload with
    | none => { merged with Payload := some op }
    | some _ => { merged with Payload := some (mergePayload pw.Payload op) }

/-- `Merge` with a possibly-nil other batch (`other == nil` returns
immediately in Go). -/
def mergeWritesOpt (pw : PendingWrites) (other : Option PendingWrites) : PendingWrites :=
  match other with
  | none => pw
  | some o => mergeWrites pw o

/-- `IsEmpty`. -/
def pendingIsEmpty (pw : PendingWrites) : Bool :=
  pw.StorageWrites.length = 0 ∧ pw.WalletUpdates.length = 0

/-! ## Committing a batch (CommitPendingWrites / MultiUpdate) -/

/-- Apply one wallet update: add every changeset delta to the owner's
balances. -/
def applyWalletUpdate (s : ServerState) (wu : WalletUpdate) : ServerState :=
  { storage := s.storage,
    wallet := fun u2 c2 =>
      if u2 = wu.UserID then s.wallet u2 c2 + changesetDelta wu.Changeset c2
      else s.wallet u2 c2 }

/-- Apply one storage write. -/
def applyStorageWrite (s : ServerState) (w : StorageWrite) : ServerState :=
  setObj s w.Collection w.UserID w.Key w.Value

/-- `CommitPendingWrites`: the single atomic MultiUpdate.  Commit
failure (an OCC conflict) is an infrastructure failure outside the
model, so the modelled commit always applies the whole batch. -/
def commitPendingWrites (s : ServerState) (pw : PendingWrites) : ServerState :=
  let s1 := pw.StorageWrites.foldl applyStorageWrite s
  pw.WalletUpdates.foldl applyWalletUpdate s1

/-- Net ledger delta a batch assigns to a (player, currency) pair: the
sum over all its wallet updates. -/
def netDelta (pw : PendingWrites) (u c : String) : Int :=
  (pw.WalletUpdates.map
    (fun wu => if wu.UserID = u then changesetDelta wu.Changeset c else 0)).sum

/-- Number of wallet updates in a batch that carry a delta for the
(player, currency) pair — the claim that merging sums deltas for
identical keys "into a single delta" asserts this is at most 1 after a
merge. -/
def walletKeyOccurrences (pw : PendingWrites) (u c : String) : Nat :=
  (pw.WalletUpdates.filter
    (fun wu => wu.UserID = u ∧ (wu.Changeset.find? (fun p => p.fst = c)).isSome)).length

/-! ## Observation helpers for payload merging -/

def payloadXpGranted (pl : Option RewardPayload) : Option Int :=
  match pl with
  | some p => match p.Progression with
              | some d => d.XpGranted
              | none => none
  | none => none

def payloadNewPlayerLevel (pl : Option RewardPayload) : Option Int :=
  match pl with
  | some p => match p.Progression with
              | some d => d.NewPlayerLevel
              | none => none
  | none => none

def payloadNewPetLevel (pl : Option RewardPayload) : Option Int :=
  match pl with
  | some p => match p.Progression with
              | some d => d.NewPetLevel
              | none => none
  | none => none

def payloadNewClassLevel (pl : Option RewardPayload) : Option Int :=
  match pl with
  | some p => match p.Progression with
              | some d => d.NewClassLevel
              | none => none
  | none => none

def payloadGold (pl : Option RewardPayload) : Int :=
  match pl with
  | some p => match p.Wallet with
              | some w => w.Gold
              | none => 0
  | none => 0

def payloadItems (pl : Option RewardPayload) : List ItemGrant :=
  match pl with
  | some p => match p.Inventory with
              | some i => i.Items
              | none => []
  | none => []

/-- Merging a payload into an existing one never touches the singular
progression fields (first-set XP and level fields) of the receiver. -/
theorem mergePayload_preserves_singular (p : RewardPayload) (op : RewardPayload) :
    payloadXpGranted (some (mergePayload (some p) op)) = payloadXpGranted (some p) ∧
    payloadNewPlayerLevel (some (mergePayload (some p) op)) = payloadNewPlayerLevel (some p) ∧
    payloadNewPetLevel (some (mergePayload (some p) op)) = payloadNewPetLevel (some p) ∧
    payloadNewClassLevel (some (mergePayload (some p) op)) = payloadNewClassLevel (some p) := by
  cases hw : op.Wallet <;> cases hi : op.Inventory <;> cases hp : op.Progression <;>
    cases hbp : p.Progression <;>
    simp only [mergePayload, payloadXpGranted, payloadNewPlayerLevel, payloadNewPetLevel,
      payloadNewClassLevel, emptyProgressionDelta, hw, hi, hp, hbp] <;>
    (try split_ifs) <;> simp [hbp]


/-- Merging a payload sums the wallet gold fields. -/
theorem mergePayload_gold (p op : RewardPayload) :
    payloadGold (some (mergePayload (some p) op)) =
      payloadGold (some p) + payloadGold (some op) := by
  cases hw : op.Wallet <;> cases hi : op.Inventory <;> cases hp : op.Progression <;>
    cases hbw : p.Wallet <;>
    simp only [mergePayload, payloadGold, hw, hi, hp, hbw] <;>
    (try split_ifs) <;> simp [hbw]

/-- Merging a payload concatenates the inventory item lists. -/
theorem mergePayload_items (p op : RewardPayload) :
    payloadItems (some (mergePayload (some p) op)) =
      payloadItems (some p) ++ payloadItems (some op) := by
  cases hw : op.Wallet <;> cases hi : op.Inventory <;> cases hp : op.Progression <;>
    cases hbi : p.Inventory <;>
    simp only [mergePayload, payloadItems, hw, hi, hp, hbi] <;>
    (try split_ifs) <;> simp [hbi]

/-- Merging always concatenates the storage-write and wallet-update
lists, whatever the payloads are. -/
theorem mergeWrites_lists (a b : PendingWrites) :
    (mergeWrites a b).StorageWrites = a.StorageWrites ++ b.StorageWrites ∧
    (mergeWrites a b).WalletUpdates = a.WalletUpdates ++ b.WalletUpdates := by
  unfold mergeWrites
  cases b.Payload <;> cases a.Payload <;> simp

/-- Concrete batch carrying a single +5 gold ledger delta for player
"u": used to test the merge behaviour on identical (player, currency)
keys. -/
def pwGoldFive : PendingWrites :=
  { StorageWrites := [],
    WalletUpdates := [{ UserID := "u", Changeset := [("gold", 5)] }],
    Payload := none }

/-- C9, counterexample: merging two batches that each carry a +5 gold
delta for the same (player, currency) key ("u", "gold") yields a batch
in which that key occurs in TWO separate wallet updates — the deltas
are concatenated, not summed into a single delta, refuting the claim
as stated. -/
theorem C9_merge_counterexample :
    walletKeyOccurrences (mergeWrites pwGoldFive pwGoldFive) "u" "gold" = 2 ∧
    ¬ (∀ (a b : PendingWrites) (u c : String),
        walletKeyOccurrences (mergeWrites a b) u c ≤ 1) := by
  refine ⟨by decide, fun h => ?_⟩
  have h2 := h pwGoldFive pwGoldFive "u" "gold"
  revert h2
  decide

/-- C9, amended: merging one batch into another concatenates the
object-store writes and the ledger deltas (so the net ledger delta for
every (player, currency) key is the sum of the two batches' net
deltas — the summing happens at commit time, not structurally in the
merged list), and combines notification payloads additively (currency
fields summed, item lists concatenated) with the already-set singular
first-XP/level fields of the receiving batch never overwritten. -/
theorem C9_merge_amended (a b : PendingWrites) (u c : String) (p : RewardPayload)
    (hp : a.Payload = some p) :
    (mergeWrites a b).StorageWrites = a.StorageWrites ++ b.StorageWrites ∧
    (mergeWrites a b).WalletUpdates = a.WalletUpdates ++ b.WalletUpdates ∧
    netDelta (mergeWrites a b) u c = netDelta a u c + netDelta b u c ∧
    payloadGold (mergeWrites a b).Payload = payloadGold a.Payload + payloadGold b.Payload ∧
    payloadItems (mergeWrites a b).Payload = payloadItems a.Payload ++ payloadItems b.Payload ∧
    payloadXpGranted (mergeWrites a b).Payload = payloadXpGranted a.Payload ∧
    payloadNewPlayerLevel (mergeWrites a b).Payload = payloadNewPlayerLevel a.Payload ∧
    payloadNewPetLevel (mergeWrites a b).Payload = payloadNewPetLevel a.Payload ∧
    payloadNewClassLevel (mergeWrites a b).Payload = payloadNewClassLevel a.Payload := by
  obtain ⟨hs, hw⟩ := mergeWrites_lists a b
  have hnet : netDelta (mergeWrites a b) u c = netDelta a u c + netDelta b u c := by
    simp [netDelta, hw]
  cases hb : b.Payload with
  | none =>
    have hm : (mergeWrites a b).Payload = a.Payload := by
      unfold mergeWrites
      simp [hb]
    refine ⟨hs, hw, hnet, ?_, ?_, ?_, ?_, ?_, ?_⟩ <;>
      simp [hm, hb, payloadGold, payloadItems, payloadXpGranted,
        payloadNewPlayerLevel, payloadNewPetLevel, payloadNewClassLevel]
  | some op =>
    have hm : (mergeWrites a b).Payload = some (mergePayload (some p) op) := by
      unfold mergeWrites
      simp [hb, hp]
    obtain ⟨h1, h2, h3, h4⟩ := mergePayload_preserves_singular p op
    refine ⟨hs, hw, hnet, ?_, ?_, ?_, ?_, ?_, ?_⟩ <;>
      rw [hm, hp] <;>
      simp only [mergePayload_gold, mergePayload_items, h1, h2, h3, h4]

/-- Concrete payload with set singular fields, for the merge witness. -/
def payloadA : RewardPayload :=
  { Source := "level_up", ReasonKey := "", Action := "", ActionPayload := "",
    Inventory := none,
    Wallet := some { Gold := 2, Gems := 0, Treats := 0 },
    Progression := some { XpGranted := some 7, XpBase := none,
                          NewPlayerLevel := some 3, NewPetLevel := none,
                          NewClassLevel := none, Unlocks := [] },
    Lootboxes := [], Meta := none }

/-- Concrete batch holding `payloadA`, for the merge witness. -/
def pwWithPayload : PendingWrites :=
  { StorageWrites := [], WalletUpdates := [], Payload := some payloadA }

/-- Witness for `C9_merge_amended` at concrete batches. -/
theorem C9_merge_amended_witness :
    pwWithPayload.Payload = some payloadA ∧
    ((mergeWrites pwWithPayload pwGoldFive).StorageWrites =
        pwWithPayload.StorageWrites ++ pwGoldFive.StorageWrites ∧
      (mergeWrites pwWithPayload pwGoldFive).WalletUpdates =
        pwWithPayload.WalletUpdates ++ pwGoldFive.WalletUpdates ∧
      netDelta (mergeWrites pwWithPayload pwGoldFive) "u" "gold" =
        netDelta pwWithPayload "u" "gold" + netDelta pwGoldFive "u" "gold" ∧
      payloadGold (mergeWrites pwWithPayload pwGoldFive).Payload =
        payloadGold pwWithPayload.Payload + payloadGold pwGoldFive.Payload ∧
      payloadItems (mergeWrites pwWithPayload pwGoldFive).Payload =
        payloadItems pwWithPayload.Payload ++ payloadItems pwGoldFive.Payload ∧
      payloadXpGranted (mergeWrites pwWithPayload pwGoldFive).Payload =
        payloadXpGranted pwWithPayload.Payload ∧
      payloadNewPlayerLevel (mergeWrites pwWithPayload pwGoldFive).Payload =
        payloadNewPlayerLevel pwWithPayload.Payload ∧
      payloadNewPetLevel (mergeWrites pwWithPayload pwGoldFive).Payload =
        payloadNewPetLevel pwWithPayload.Payload ∧
      payloadNewClassLevel (mergeWrites pwWithPayload pwGoldFive).Payload =
        payloadNewClassLevel pwWithPayload.Payload) :=
  ⟨rfl, C9_merge_amended pwWithPayload pwGoldFive "u" "gold" payloadA rfl⟩

/-! ## Level calculation (items.go) -/

inductive Err where
  | noUserId
  | unmarshal
  | invalidInput
  | activeMatchExists
  | rateLimitExceeded
  | noActiveMatch
  | matchIDMismatch
  | durationTooShort
  | staleActiveMatch
  | invalidItemID
  | invalidLevelTree
  | invalidLevelThresholds
  | invalidExperience
  | invalidItemType
  | invalidConfig
  | parseFailure
deriving Repr, DecidableEq

deriving instance DecidableEq for Except

/-- The binary-search loop of `CalculateLevel` (items.go): `low`/`high`
bisection over the monotone threshold table, returning the final
`high`.  The Go `for low <= high` loop terminates because the interval
shrinks; the recursion is driven by the interval width as fuel, which
dominates the iteration count. -/
def levelSearch (ths : List Int) (exp : Int) : Int → Int → Nat → Int
  | _, high, 0 => high
  | low, high, fuel + 1 =>
    if low ≤ high then
      if exp ≥ ths.getD ((low + high).tdiv 2).toNat 0 then
        levelSearch ths exp ((low + high).tdiv 2 + 1) high fuel
      else levelSearch ths exp low ((low + high).tdiv 2 - 1) fuel
    else high

/-- `CalculateLevel` (items.go): max-level early exit, threshold-table
length guard, then binary search starting from `low = 1`,
`high = MaxLevel`. -/
def CalculateLevel (gd : GameDataStuct) (treeName : String) (exp : Int) : Except Err Int :=
  match GetLevelTree gd treeName with
  | none => .error .invalidLevelTree
  | some tree =>
    if exp < 0 then .ok 1
    else if exp ≥ thresholdAt tree tree.MaxLevel then .ok tree.MaxLevel
    else if (tree.LevelThresholds.length : Int) < tree.MaxLevel then .error .invalidLevelThresholds
    else .ok (levelSearch tree.LevelThresholds exp 1 tree.MaxLevel
                (tree.MaxLevel + 1 - 1).toNat.succ)

/-- The search result never exceeds the initial upper bound. -/
theorem levelSearch_le (ths : List Int) (exp : Int) :
    ∀ (fuel : Nat) (low high : Int), 1 ≤ low → levelSearch ths exp low high fuel ≤ high := by
  intro fuel
  induction fuel with
  | zero => intro low high _; simp [levelSearch]
  | succ n ih =>
    intro low high hlow
    unfold levelSearch
    split
    · next hlh =>
      have hconv : (low + high).tdiv 2 = (low + high) / 2 :=
        Int.tdiv_eq_ediv (by omega) (by omega)
      split
      · have h1 : (low + high).tdiv 2 + 1 ≥ 1 := by omega
        exact ih ((low + high).tdiv 2 + 1) high h1
      · have h2 := ih low ((low + high).tdiv 2 - 1) hlow
        have hle : (low + high).tdiv 2 ≤ high := by omega
        omega
    · omega

/-- `CalculateLevel` never reports a level above the tree's maximum
(for a tree with positive maximum level). -/
theorem CalculateLevel_le_max (gd : GameDataStuct) (treeName : String) (exp : Int)
    (tree : LevelTree) (ht : GetLevelTree gd treeName = some tree)
    (hmax : 1 ≤ tree.MaxLevel) (lvl : Int)
    (hres : CalculateLevel gd treeName exp = .ok lvl) :
    lvl ≤ tree.MaxLevel := by
  unfold CalculateLevel at hres
  rw [ht] at hres
  by_cases h1 : exp < 0
  · simp [h1] at hres
    omega
  by_cases h2 : exp ≥ thresholdAt tree tree.MaxLevel
  · simp [h1, h2] at hres
    omega
  by_cases h3 : (tree.LevelThresholds.length : Int) < tree.MaxLevel
  · simp [h1, h2, h3] at hres
  · simp [h1, h2, h3] at hres
    rw [← hres]
    exact levelSearch_le tree.LevelThresholds exp _ 1 tree.MaxLevel le_rfl

/-! ## XP-granting closures (match_result.go preparePlayerXP, errors-file PrepareExperience) -/

/-- The `player_level` tree name used by `preparePlayerXP`. -/
def playerLevelTreeName : String := "player_level"

/-- The progression-update closure inside `preparePlayerXP`
(match_result.go): add the adjusted XP, then recompute the level.  The
`calculatedLevel > tree.MaxLevel` guard (the Go "Cap at max level"
block, which would also clamp `Exp` to the max threshold) is kept
verbatim. -/
def playerXPUpdate (gd : GameDataStuct) (adjustedXP : Int) (prog : ItemProgression) : ItemProgression :=
  let prog1 := { prog with Exp := prog.Exp + adjustedXP }
  match GetLevelTree gd playerLevelTreeName with
  | none => prog1
  | some tree =>
    match CalculateLevel gd playerLevelTreeName prog1.Exp with
    | .error _ => prog1
    | .ok calc0 =>
      let pair :=
        if calc0 > tree.MaxLevel then
          (tree.MaxLevel, { prog1 with Exp := thresholdAt tree tree.MaxLevel })
        else (calc0, prog1)
      if pair.fst > pair.snd.Level then { pair.snd with Level := pair.fst } else pair.snd

/-- The progression-update closure inside `PrepareExperience` (the
pet/class XP path): overflow guard, experience clamped at the
max-level threshold BEFORE the level computation, then the same
level-cap block. -/
def prepareExperienceUpdate (gd : GameDataStuct) (treeName : String) (exp : Nat) (prog : ItemProgression) : Except Err ItemProgression :=
  let newExp0 := prog.Exp + (exp : Int)
  let newExp1 := if newExp0 < prog.Exp then (2 ^ 31 - 1 : Int) else newExp0
  match GetLevelTree gd treeName with
  | none => .error .invalidLevelTree
  | some tree =>
    let maxExp := thresholdAt tree tree.MaxLevel
    let newExp2 := if newExp1 > maxExp then maxExp else newExp1
    let prog1 := { prog with Exp := newExp2 }
    match CalculateLevel gd treeName prog1.Exp with
    | .error e => .error e
    | .ok calc0 =>
      let pair :=
        if calc0 > tree.MaxLevel then (tree.MaxLevel, { prog1 with Exp := maxExp })
        else (calc0, prog1)
      .ok (if pair.fst > pair.snd.Level then { pair.snd with Level := pair.fst } else pair.snd)

/-- Level tree for the C5 evaluation: maximum level 2, with the
max-level cumulative-experience threshold at 100. -/
def treeC5 : LevelTree :=
  { MaxLevel := 2, BaseXP := 0, LevelThresholds := [0, 0, 100], Rewards := [] }

/-- Game data holding only the player level tree `treeC5`. -/
def gdC5 : GameDataStuct :=
  { Pets := [], Classes := [], Backgrounds := [], PieceStyles := [],
    LevelTrees := [(playerLevelTreeName, treeC5)] }

/-- A player progression already at the maximum level with experience
exactly at the maximum threshold. -/
def progC5 : ItemProgression :=
  { defaultProgression with Level := 2, Exp := 100 }

/-- C5: evaluating the player-level XP path at a concrete failing
input.  A player at the max-level threshold (Exp = 100 =
`LevelThresholds[MaxLevel]`) receives a further 50 XP grant; the
stored experience becomes 150, exceeding the maximum level's
threshold.  The clamp in `preparePlayerXP` sits under the guard
`calculatedLevel > tree.MaxLevel`, which can never hold because
`CalculateLevel` already caps its result at `tree.MaxLevel`; so the
player path never clamps experience, unlike `PrepareExperience`
(the pet/class path), which clamps before computing the level. -/
theorem C5_player_exp_exceeds_threshold :
    (playerXPUpdate gdC5 50 progC5).Exp = 150 ∧
    thresholdAt treeC5 treeC5.MaxLevel = 100 ∧
    (playerXPUpdate gdC5 50 progC5).Level = 2 := by
  constructor
  · rfl
  constructor
  · rfl
  · rfl

/-- The pet/class path clamps stored experience at the max-level
threshold unconditionally (supporting contrast for C5). -/
theorem prepareExperienceUpdate_clamps (gd : GameDataStuct) (treeName : String)
    (exp : Nat) (prog : ItemProgression) (tree : LevelTree)
    (ht : GetLevelTree gd treeName = some tree) (res : ItemProgression)
    (hres : prepareExperienceUpdate gd treeName exp prog = .ok res) :
    res.Exp ≤ thresholdAt tree tree.MaxLevel := by
  unfold prepareExperienceUpdate at hres
  rw [ht] at hres
  simp only [] at hres
  split at hres
  · cases hres
  · simp only [Except.ok.injEq] at hres
    rw [← hres]
    split_ifs <;> simp <;> omega

/-- The player-level XP path never decreases the stored level
(supporting part of C5 that does hold). -/
theorem playerXPUpdate_level_monotone (gd : GameDataStuct) (adjustedXP : Int)
    (prog : ItemProgression) :
    prog.Level ≤ (playerXPUpdate gd adjustedXP prog).Level := by
  unfold playerXPUpdate
  split
  · simp
  · dsimp only
    split
    · simp
    · split_ifs <;> simp_all <;> omega

/-- The player-level XP path never raises the stored level above the
configured maximum (supporting part of C5 that does hold). -/
theorem playerXPUpdate_level_le_max (gd : GameDataStuct) (adjustedXP : Int)
    (prog : ItemProgression) (tree : LevelTree)
    (ht : GetLevelTree gd playerLevelTreeName = some tree)
    (hmax : 1 ≤ tree.MaxLevel) (hlvl : prog.Level ≤ tree.MaxLevel) :
    (playerXPUpdate gd adjustedXP prog).Level ≤ tree.MaxLevel := by
  unfold playerXPUpdate
  rw [ht]
  dsimp only
  cases hcalc : CalculateLevel gd playerLevelTreeName (prog.Exp + adjustedXP) with
  | error e => simpa using hlvl
  | ok c =>
    have hc := CalculateLevel_le_max gd playerLevelTreeName (prog.Exp + adjustedXP) tree ht hmax c hcalc
    dsimp only
    split_ifs <;> dsimp only <;> omega

/-! ## Active-match lifecycle (match_result.go) -/

/-- `clearActiveMatch`: best-effort delete of the active-match record
(run on a background context in Go; deletion itself is modelled, the
cancellation concern is not). -/
def clearActiveMatch (s : ServerState) (u : String) : ServerState :=
  delObj s storageCollectionActiveMatch u storageKeyCurrentMatch

def writeActiveMatch (s : ServerState) (u : String) (a : ActiveMatch) : ServerState :=
  setObj s storageCollectionActiveMatch u storageKeyCurrentMatch (.activeMatchV a)

/-- `RpcNotifyMatchStart` (match_result.go): reject empty match IDs;
if an active match already exists and is not stale, reject; if it is
stale, auto-clear it and fall through to the write; stamp the fresh
start time.  The Go success responds with the literal two-character
JSON object string. -/
def RpcNotifyMatchStart (now : Int) (userID : String) (req : NotifyMatchStartRequest) (s : ServerState) : Except Err String × ServerState :=
  if req.MatchID = "" then (.error .invalidInput, s)
  else
    match readActiveMatch s userID with
    | some staleCheck =>
      if now - staleCheck.StartTime > maxMatchDurationMs then
        (.ok "\x7b\x7d",
          writeActiveMatch (clearActiveMatch s userID) userID
            { MatchID := req.MatchID, StartTime := now, OpponentID := req.OpponentID })
      else (.error .activeMatchExists, s)
    | none =>
      (.ok "\x7b\x7d",
        writeActiveMatch s userID
          { MatchID := req.MatchID, StartTime := now, OpponentID := req.OpponentID })

/-- `validateActiveMatch` (match_result.go): require a recorded active
match with the claimed match ID, at least `minMatchDurationMs` elapsed,
and at most `maxMatchDurationMs` elapsed (the single ceiling used for
every mode); a stale record is auto-cleared and the submission
rejected. -/
def validateActiveMatch (now : Int) (u matchID : String) (s : ServerState) : Except Err ActiveMatch × ServerState :=
  match readActiveMatch s u with
  | none => (.error .noActiveMatch, s)
  | some am =>
    if am.MatchID ≠ matchID then (.error .matchIDMismatch, s)
    else if now - am.StartTime < minMatchDurationMs then (.error .durationTooShort, s)
    else if now - am.StartTime > maxMatchDurationMs then (.error .staleActiveMatch, clearActiveMatch s u)
    else (.ok am, s)

/-- Reading back a just-deleted key yields `none`. -/
theorem readActiveMatch_clear (s : ServerState) (u : String) :
    readActiveMatch (clearActiveMatch s u) u = none := by
  simp [readActiveMatch, clearActiveMatch, getObj, delObj]

/-- The empty server state. -/
def emptyState : ServerState :=
  { storage := fun _ _ _ => none, wallet := fun _ _ => 0 }

/-- A fresh (non-stale) solo active match for "alice", started at 0. -/
def amC4 : ActiveMatch := { MatchID := "m1", StartTime := 0, OpponentID := "" }

def sC4 : ServerState := writeActiveMatch emptyState "alice" amC4

/-- C4, counterexample: with a fresh (non-stale) active-match record
present, notify-match-start REJECTS the new start and leaves the prior
record in place — registration is not an unconditional overwrite. -/
theorem C4_notify_counterexample :
    (RpcNotifyMatchStart 1000 "alice" { MatchID := "m2", OpponentID := "" } sC4).fst
        = .error .activeMatchExists ∧
    readActiveMatch (RpcNotifyMatchStart 1000 "alice" { MatchID := "m2", OpponentID := "" } sC4).snd "alice"
        = some amC4 := by
  constructor <;> rfl

/-- C4, amended: notify-match-start overwrites the player's
active-match record and stamps a fresh start time when no record
exists, or when the existing record is stale (older than the
10-minute ceiling — the stale record is auto-cleared first); a fresh
existing record causes a rejection that leaves the prior record
unchanged. -/
theorem C4_notify_start_amended (now : Int) (u : String) (req : NotifyMatchStartRequest)
    (s : ServerState) (hmid : req.MatchID ≠ "") :
    (readActiveMatch s u = none →
      RpcNotifyMatchStart now u req s =
        (.ok "\x7b\x7d",
          writeActiveMatch s u
            { MatchID := req.MatchID, StartTime := now, OpponentID := req.OpponentID })) ∧
    (∀ am, readActiveMatch s u = some am → now - am.StartTime > maxMatchDurationMs →
      RpcNotifyMatchStart now u req s =
        (.ok "\x7b\x7d",
          writeActiveMatch (clearActiveMatch s u) u
            { MatchID := req.MatchID, StartTime := now, OpponentID := req.OpponentID })) ∧
    (∀ am, readActiveMatch s u = some am → ¬ (now - am.StartTime > maxMatchDurationMs) →
      RpcNotifyMatchStart now u req s = (.error .activeMatchExists, s)) := by
  refine ⟨?_, ?_, ?_⟩
  · intro hnone
    unfold RpcNotifyMatchStart
    rw [hnone]
    simp [hmid]
  · intro am hsome hstale
    unfold RpcNotifyMatchStart
    rw [hsome]
    simp [hmid, hstale]
  · intro am hsome hfresh
    unfold RpcNotifyMatchStart
    rw [hsome]
    simp [hmid, hfresh]

/-- Witness for `C4_notify_start_amended`: the stale-overwrite case at
concrete inputs (record started at 0, new start at 700000 ms — past
the 10-minute ceiling — is accepted and restamped). -/
theorem C4_notify_start_amended_witness :
    ("m2" : String) ≠ "" ∧
    (readActiveMatch sC4 "alice" = some amC4 ∧
      (700001 : Int) - amC4.StartTime > maxMatchDurationMs ∧
      RpcNotifyMatchStart 700001 "alice" { MatchID := "m2", OpponentID := "" } sC4 =
        (.ok "\x7b\x7d",
          writeActiveMatch (clearActiveMatch sC4 "alice") "alice"
            { MatchID := "m2", StartTime := 700001, OpponentID := "" })) :=
  ⟨by decide,
    by
      refine ⟨rfl, by decide, ?_⟩
      exact (C4_notify_start_amended 700001 "alice" { MatchID := "m2", OpponentID := "" } sC4
        (by decide)).2.1 amC4 rfl (by decide)⟩

/-- A solo and a two-player active match that are otherwise identical
(same match ID and start time), for probing mode dependence of the
validation ceiling. -/
def amSoloC8 : ActiveMatch := { MatchID := "m", StartTime := 0, OpponentID := "" }

def amDuoC8 : ActiveMatch := { MatchID := "m", StartTime := 0, OpponentID := "bob" }

def sSoloC8 : ServerState := writeActiveMatch emptyState "alice" amSoloC8

def sDuoC8 : ServerState := writeActiveMatch emptyState "alice" amDuoC8

/-- C8, counterexample: there is NO elapsed time at which a solo
session passes validation while the otherwise-identical two-player
session is rejected as stale — the ceiling is one shared constant, not
a generous-solo / tight-two-player pair as claimed. -/
theorem C8_no_mode_dependent_ceiling :
    ¬ ∃ e : Int, (∃ a, (validateActiveMatch e "alice" "m" sSoloC8).fst = .ok a) ∧
      (validateActiveMatch e "alice" "m" sDuoC8).fst = .error .staleActiveMatch := by
  rintro ⟨e, ⟨a, h1⟩, h2⟩
  have hr1 : readActiveMatch sSoloC8 "alice" = some amSoloC8 := rfl
  have hr2 : readActiveMatch sDuoC8 "alice" = some amDuoC8 := rfl
  unfold validateActiveMatch at h1 h2
  rw [hr1] at h1
  rw [hr2] at h2
  simp only [amSoloC8, amDuoC8] at h1 h2
  split_ifs at h1 h2

/-- C8, amended: on result submission with a recorded active match for
the claimed match ID, an elapsed time below the 10-second floor is
rejected, and an elapsed time above the single 10-minute ceiling —
the same ceiling for solo and two-player records, since the check
never reads the opponent field — auto-clears the record and rejects
the submission as stale; otherwise the active match is accepted. -/
theorem C8_duration_gating (now : Int) (u mID : String) (s : ServerState) (am : ActiveMatch)
    (hread : readActiveMatch s u = some am) (hmid : am.MatchID = mID) :
    (now - am.StartTime < minMatchDurationMs →
      validateActiveMatch now u mID s = (.error .durationTooShort, s)) ∧
    (now - am.StartTime > maxMatchDurationMs →
      validateActiveMatch now u mID s = (.error .staleActiveMatch, clearActiveMatch s u) ∧
      readActiveMatch (validateActiveMatch now u mID s).snd u = none) ∧
    (minMatchDurationMs ≤ now - am.StartTime → now - am.StartTime ≤ maxMatchDurationMs →
      validateActiveMatch now u mID s = (.ok am, s)) := by
  refine ⟨?_, ?_, ?_⟩
  · intro hshort
    unfold validateActiveMatch
    rw [hread]
    simp [hmid, hshort]
  · intro hstale
    have hnotshort : ¬ (now - am.StartTime < minMatchDurationMs) := by
      unfold minMatchDurationMs
      unfold maxMatchDurationMs at hstale
      omega
    constructor
    · unfold validateActiveMatch
      rw [hread]
      simp [hmid, hnotshort, hstale]
    · unfold validateActiveMatch
      rw [hread]
      simp [hmid, hnotshort, hstale, readActiveMatch_clear]
  · intro hfloor hceil
    unfold validateActiveMatch
    rw [hread]
    have h1 : ¬ (now - am.StartTime < minMatchDurationMs) := by omega
    have h2 : ¬ (maxMatchDurationMs < now - am.StartTime) := by omega
    simp [hmid, h1, h2]

/-- Witness for `C8_duration_gating`: a two-player record started at 0;
a submission at 5 s is rejected as too short, one at 700 s is rejected
as stale. -/
theorem C8_duration_gating_witness :
    readActiveMatch sDuoC8 "alice" = some amDuoC8 ∧
    amDuoC8.MatchID = "m" ∧
    validateActiveMatch 5000 "alice" "m" sDuoC8 = (.error .durationTooShort, sDuoC8) ∧
    validateActiveMatch 700000 "alice" "m" sDuoC8 =
      (.error .staleActiveMatch, clearActiveMatch sDuoC8 "alice") :=
  ⟨rfl, rfl,
    (C8_duration_gating 5000 "alice" "m" sDuoC8 amDuoC8 rfl rfl).1 (by decide),
    ((C8_duration_gating 700000 "alice" "m" sDuoC8 amDuoC8 rfl rfl).2.1 (by decide)).1⟩

/-! ## Store access lemmas -/

theorem getObj_setObj_same (s : ServerState) (c u k : String) (v : StorageValue) :
    getObj (setObj s c u k v) c u k = some v := by
  simp [getObj, setObj]

theorem getObj_setObj_ne (s : ServerState) (c u k c2 u2 k2 : String) (v : StorageValue)
    (h : ¬ (c2 = c ∧ u2 = u ∧ k2 = k)) :
    getObj (setObj s c u k v) c2 u2 k2 = getObj s c2 u2 k2 := by
  simp [getObj, setObj, h]

/-! ## Write-first consensus (match_result.go resolveMatchConsensus) -/

/-- Step 1 of the consensus protocol: unconditionally write the
submitter's own claim record (`Resolved = false`). -/
def writeOwnClaim (now : Int) (s : ServerState) (userID matchID : String) (claimedWin : Bool) (score : Int) : ServerState :=
  setObj s storageCollectionResults userID (resultKey matchID userID)
    (.matchResultV { UserID := userID, ClaimedWin := claimedWin, Score := score,
                     SubmittedAt := now, Resolved := false })

/-- Step 2 of the consensus protocol: read the opponent's record (in
the state produced by step 1) and derive the role; on "ok" re-write the
submitter's own record with `Resolved = true`. -/
def consensusResolve (now : Int) (s : ServerState) (userID opponentID matchID : String) (claimedWin : Bool) (score : Int) : String × ServerState :=
  match readMatchResult s matchID opponentID with
  | none => ("pending", s)
  | some oppRec =>
    if oppRec.Resolved then ("resolved", s)
    else if claimedWin && oppRec.ClaimedWin then ("conflict", s)
    else
      ("ok",
        setObj s storageCollectionResults userID (resultKey matchID userID)
          (.matchResultV { UserID := userID, ClaimedWin := claimedWin, Score := score,
                           SubmittedAt := now, Resolved := true }))

/-- `resolveMatchConsensus` (match_result.go): solo short-circuits to
"ok"; otherwise write-own-claim first, then resolve against the
opponent's record. -/
def resolveMatchConsensus (now : Int) (s : ServerState) (userID opponentID matchID : String) (claimedWin : Bool) (score : Int) : String × ServerState :=
  if opponentID = "" then ("ok", s)
  else
    consensusResolve now (writeOwnClaim now s userID matchID claimedWin score)
      userID opponentID matchID claimedWin score

/-- Writing one user's claim record does not disturb another user's
records. -/
theorem readMatchResult_writeOwn_other (now : Int) (s : ServerState)
    (u m : String) (win : Bool) (sc : Int) (m2 u2 : String) (hne : u2 ≠ u) :
    readMatchResult (writeOwnClaim now s u m win sc) m2 u2 = readMatchResult s m2 u2 := by
  unfold readMatchResult writeOwnClaim
  rw [getObj_setObj_ne]
  intro h
  exact hne h.2.1

/-- Reading back the submitter's own just-written claim. -/
theorem readMatchResult_writeOwn_same (now : Int) (s : ServerState)
    (u m : String) (win : Bool) (sc : Int) :
    readMatchResult (writeOwnClaim now s u m win sc) m u =
      some { UserID := u, ClaimedWin := win, Score := sc, SubmittedAt := now, Resolved := false } := by
  unfold readMatchResult writeOwnClaim
  rw [getObj_setObj_same]

/-- C2: role derivation of the write-first consensus step.  A solo
submission short-circuits to "ok" without touching state.  For a
two-player submission (distinct opponent), the submitter's own claim
record is committed to the store in EVERY outcome (the write happens
before the read, so it is present whatever the read finds), and the
role is a function of the opponent record as of the submitter's write:
absent opponent record gives "pending", a resolved opponent record
gives "resolved", an unresolved opponent record with both claiming a
win gives "conflict", and otherwise "ok", in which case (and only in
which case) the submitter's own record is re-written with the resolved
mark set. -/
theorem C2_consensus_roles (now : Int) (s : ServerState) (u opp m : String) (win : Bool) (sc : Int) :
    (opp = "" → resolveMatchConsensus now s u opp m win sc = ("ok", s)) ∧
    (opp ≠ "" → opp ≠ u →
      ((resolveMatchConsensus now s u opp m win sc).fst = "ok" →
        readMatchResult (resolveMatchConsensus now s u opp m win sc).snd m u =
          some { UserID := u, ClaimedWin := win, Score := sc, SubmittedAt := now, Resolved := true }) ∧
      ((resolveMatchConsensus now s u opp m win sc).fst ≠ "ok" →
        readMatchResult (resolveMatchConsensus now s u opp m win sc).snd m u =
          some { UserID := u, ClaimedWin := win, Score := sc, SubmittedAt := now, Resolved := false }) ∧
      (readMatchResult s m opp = none →
        (resolveMatchConsensus now s u opp m win sc).fst = "pending") ∧
      (∀ r, readMatchResult s m opp = some r → r.Resolved = true →
        (resolveMatchConsensus now s u opp m win sc).fst = "resolved") ∧
      (∀ r, readMatchResult s m opp = some r → r.Resolved = false →
        win = true → r.ClaimedWin = true →
        (resolveMatchConsensus now s u opp m win sc).fst = "conflict") ∧
      (∀ r, readMatchResult s m opp = some r → r.Resolved = false →
        ¬ (win = true ∧ r.ClaimedWin = true) →
        (resolveMatchConsensus now s u opp m win sc).fst = "ok")) := by
  constructor
  · intro hsolo
    unfold resolveMatchConsensus
    simp [hsolo]
  · intro hopp hne
    have hother : readMatchResult (writeOwnClaim now s u m win sc) m opp = readMatchResult s m opp :=
      readMatchResult_writeOwn_other now s u m win sc m opp hne
    unfold resolveMatchConsensus
    rw [if_neg hopp]
    unfold consensusResolve
    rw [hother]
    cases hread : readMatchResult s m opp with
    | none =>
      refine ⟨?_, ?_, ?_, ?_, ?_, ?_⟩ <;>
        simp [readMatchResult_writeOwn_same, hread]
    | some r =>
      cases r with
      | mk ruid rwin rscore rsub rres =>
        cases rres <;> cases win <;> cases rwin <;>
          refine ⟨?_, ?_, ?_, ?_, ?_, ?_⟩ <;>
          simp [readMatchResult_writeOwn_same, hread, readMatchResult, writeOwnClaim,
            getObj_setObj_same]

/-- Witness for `C2_consensus_roles`: first submitter on an empty store
resolves to "pending". -/
theorem C2_consensus_roles_witness :
    ("bob" : String) ≠ "" ∧ ("bob" : String) ≠ "alice" ∧
    readMatchResult emptyState "m" "bob" = none ∧
    (resolveMatchConsensus 100 emptyState "alice" "bob" "m" true 10).fst = "pending" :=
  ⟨by decide, by decide, rfl,
    ((C2_consensus_roles 100 emptyState "alice" "bob" "m" true 10).2
      (by decide) (by decide)).2.2.1 rfl⟩

/-! ## Request plumbing (match_result.go) -/

/-- The loaded global configuration (game data, match economy, lootbox
tiers), passed explicitly instead of Go package globals. -/
structure Globals where
  gd : GameDataStuct
  matchConfig : MatchConfig
  lootboxConfig : LootboxConfig

/-- `checkMatchRateLimit`: reject when the last recorded settlement is
less than `minRateLimitMs` ago. -/
def checkMatchRateLimit (now : Int) (s : ServerState) (u : String) : Option Err :=
  match readMatchHistory s u with
  | some h => if now - h.LastMatchTime < minRateLimitMs then some .rateLimitExceeded else none
  | none => none

/-- `validateRounds`: self-heal the aggregate counts from the round
history when they disagree; never a rejection. -/
def validateRounds (req : MatchResultRequest) : MatchResultRequest :=
  if req.Rounds.length = 0 then req
  else
    let derivedWon : Int := (req.Rounds.filter (fun r => r.PlayerWon)).length
    let derivedLost : Int := (req.Rounds.filter (fun r => !r.PlayerWon)).length
    if derivedWon ≠ req.RoundsWon ∨ derivedLost ≠ req.RoundsLost then
      { req with RoundsWon := derivedWon, RoundsLost := derivedLost }
    else req

/-- `incrementDailyMatchCount` (daily-drops file): reset the counter at
the UTC midnight boundary (passed explicitly as `midnightUnix`), then
increment and write back. -/
def incrementDailyMatchCount (midnightUnix : Int) (s : ServerState) (u : String) : Int × ServerState :=
  let data := match readDailyMatches s u with
    | some d => d
    | none => { Count := 0, ResetUnix := 0 }
  let data1 := if data.ResetUnix < midnightUnix then
      ({ Count := 0, ResetUnix := midnightUnix } : DailyMatches)
    else data
  let data2 := { data1 with Count := data1.Count + 1 }
  (data2.Count, setObj s storageCollectionDrops u storageKeyDailyMatches (.dailyMatchesV data2))

/-- `GetItemProgression` (items.go): read, or initialize-and-write the
default record when absent (`InitializeProgression`). -/
def GetItemProgression (s : ServerState) (u keyPrefix : String) (itemID : Nat) : ItemProgression × ServerState :=
  let key := keyPrefix ++ toString itemID
  match readProgression s u key with
  | some p => (p, s)
  | none =>
    (defaultProgression,
      setObj s storageCollectionProgression u key (.progressionV defaultProgression))

/-- `PrepareProgressionUpdate` (progression.go): read (initializing if
absent), apply the update function, and return the deferred storage
write without committing it. -/
def PrepareProgressionUpdate (s : ServerState) (u progressionKey : String) (itemID : Nat)
    (updateFunc : ItemProgression → Except Err ItemProgression) :
    Except Err (ItemProgression × StorageWrite) × ServerState :=
  let pair := GetItemProgression s u progressionKey itemID
  match updateFunc pair.fst with
  | .error e => (.error e, pair.snd)
  | .ok prog2 =>
    (.ok (prog2,
      { Collection := storageCollectionProgression,
        Key := progressionKey ++ toString itemID,
        UserID := u, Value := .progressionV prog2 }), pair.snd)

/-- `PrepareCreateLootbox` (match_result.go): prepare an unopened
lootbox and its storage write.  The Go identifier embeds a random
suffix; the model uses a deterministic identifier (no modelled code
inspects it). -/
def PrepareCreateLootbox (userID tier : String) (now : Int) : Lootbox × StorageWrite :=
  let lb : Lootbox := { ID := "lb_" ++ userID ++ "_" ++ toString now,
                        Tier := tier, CreatedAt := now, Opened := false }
  (lb, { Collection := storageCollectionLootboxes, Key := lb.ID,
         UserID := userID, Value := .lootboxV lb })

/-- `GetRewardItemIDs` (errors-file): background/style IDs of the item,
truncated to the configured amount. -/
def GetRewardItemIDs (gd : GameDataStuct) (itemType : String) (itemID : Nat)
    (rewardType : String) (amount : Nat) : List Nat :=
  let ids :=
    if itemType = CategoryPet then
      match GetPet gd itemID with
      | some pet =>
        if rewardType = "backgrounds" then pet.BackgroundIDs
        else if rewardType = "piece_styles" then pet.StyleIDs
        else []
      | none => []
    else if itemType = CategoryClass then
      match GetClass gd itemID with
      | some cl =>
        if rewardType = "backgrounds" then cl.BackgroundIDs
        else if rewardType = "piece_styles" then cl.StyleIDs
        else []
      | none => []
    else []
  if ids.length > amount then ids.take amount else ids

/-- The reward-amount map `rewards map[string]uint32` built by
`PrepareLevelRewards` (gold/gems kept whenever configured, unlock and
item rewards only when positive), modelled as a record. -/
structure RewardAmounts where
  gold : Option Nat
  gems : Option Nat
  abilities : Option Nat
  sprites : Option Nat
  backgrounds : Option Nat
  pieceStyles : Option Nat
deriving Repr, DecidableEq

def optPos (o : Option Nat) : Option Nat :=
  match o with
  | some v => if v > 0 then some v else none
  | none => none

/-- The ability/sprite-unlock closure inside `PrepareRewardItems`:
clamp the granted amount to what the item actually has, and bump the
unlocked counter.  (The Go uint32 wrap-around on a negative
`maxAvailable - currentUnlocked` is not modelled; no claim depends on
over-unlocked progressions.) -/
def unlockRewardClosure (isSprites : Bool) (maxAb maxSp : Int) (amount : Nat)
    (prog : ItemProgression) : Except Err ItemProgression :=
  let currentUnlocked := if isSprites then prog.SpritesUnlocked else prog.AbilitiesUnlocked
  let maxAvailable := if isSprites then maxSp else maxAb
  if maxAvailable ≤ 0 then .ok prog
  else
    let amount2 : Int :=
      if currentUnlocked + (amount : Int) > maxAvailable then maxAvailable - currentUnlocked
      else (amount : Int)
    if amount2 = 0 then .ok prog
    else if isSprites then .ok { prog with SpritesUnlocked := prog.SpritesUnlocked + amount2 }
    else .ok { prog with AbilitiesUnlocked := prog.AbilitiesUnlocked + amount2 }

/-- The abilities/sprites arm of `PrepareRewardItems`: look up the
item's capacity, then prepare a deferred progression update.  An item
type that is neither "pet" nor "class" (as happens on every call
reached from the XP paths, which pass the storage keys or "player")
silently skips, exactly as the Go `itemExists` flag does. -/
def prepareUnlockReward (G : Globals) (u itemType : String) (itemID : Nat)
    (isSprites : Bool) (amount : Nat) (s : ServerState) :
    Except Err (Option StorageWrite) × ServerState :=
  let info : Option (Int × Int) :=
    if itemType = CategoryPet then
      (GetPet G.gd itemID).map (fun p => ((p.AbilityIDs.length : Int), p.SpriteCount))
    else if itemType = CategoryClass then
      (GetClass G.gd itemID).map (fun c => ((c.AbilityIDs.length : Int), c.SpriteCount))
    else none
  match info with
  | none => (.ok none, s)
  | some mx =>
    if itemType = CategoryPet ∨ itemType = CategoryClass then
      let progressionKey := if itemType = CategoryPet then ProgressionKeyPet else ProgressionKeyClass
      match PrepareProgressionUpdate s u progressionKey itemID
          (unlockRewardClosure isSprites mx.fst mx.snd amount) with
      | (.error e, s2) => (.error e, s2)
      | (.ok pair, s2) => (.ok (some pair.snd), s2)
    else (.error .invalidItemType, s)

/-- The backgrounds/piece-styles arm of `PrepareRewardItems`: read the
inventory, grant the not-yet-owned reward IDs, and prepare one
inventory write when anything new is granted. -/
def prepareItemReward (G : Globals) (u itemType : String) (itemID : Nat)
    (rewardType : String) (amount : Nat) (s : ServerState) :
    (Option StorageWrite × List ItemGrant) :=
  let storageKey := if rewardType = "piece_styles" then storageKeyPieceStyle else storageKeyBackground
  let owned := match readInventory s u storageKey with
    | some items => items
    | none => []
  let rewardIDs := GetRewardItemIDs G.gd itemType itemID rewardType amount
  let newItems := rewardIDs.filter (fun id => ¬ owned.contains id)
  let granted := newItems.map (fun id => ({ ID := id, TypeName := rewardType } : ItemGrant))
  if newItems.length > 0 then
    (some { Collection := storageCollectionInventory, Key := storageKey,
            UserID := u, Value := .inventoryV (owned ++ newItems) }, granted)
  else (none, granted)

/-- `PrepareRewardItems` (errors-file): guard on item existence, then
prepare currency, unlock, and item rewards without committing.  The Go
`map` iteration is modelled in the fixed order gold, gems, abilities,
sprites, backgrounds, piece_styles; no modelled property depends on
the order. -/
def PrepareRewardItems (G : Globals) (u : String) (ra : RewardAmounts)
    (itemType : String) (itemID : Nat) (s : ServerState) :
    Except Err PendingWrites × ServerState :=
  if ¬ ValidateItemExists G.gd itemType itemID then (.error .invalidItemID, s)
  else
    let walletChanges : List (String × Int) :=
      (match ra.gold with | some g => [("gold", (g : Int))] | none => []) ++
      (match ra.gems with | some g => [("gems", (g : Int))] | none => [])
    let stepAb : Except Err (Option StorageWrite) × ServerState :=
      match ra.abilities with
      | some a => prepareUnlockReward G u itemType itemID false a s
      | none => (.ok none, s)
    match stepAb with
    | (.error e, s1) => (.error e, s1)
    | (.ok wAb, s1) =>
      let stepSp : Except Err (Option StorageWrite) × ServerState :=
        match ra.sprites with
        | some a => prepareUnlockReward G u itemType itemID true a s1
        | none => (.ok none, s1)
      match stepSp with
      | (.error e, s2) => (.error e, s2)
      | (.ok wSp, s2) =>
        let bgPair : Option StorageWrite × List ItemGrant :=
          match ra.backgrounds with
          | some a => prepareItemReward G u itemType itemID "backgrounds" a s2
          | none => (none, [])
        let psPair : Option StorageWrite × List ItemGrant :=
          match ra.pieceStyles with
          | some a => prepareItemReward G u itemType itemID "piece_styles" a s2
          | none => (none, [])
        let grantedItems := bgPair.snd ++ psPair.snd
        let writes := (wAb.toList ++ wSp.toList ++ bgPair.fst.toList ++ psPair.fst.toList)
        let pending0 : PendingWrites :=
          { StorageWrites := writes, WalletUpdates := [], Payload := none }
        let pending1 :=
          if walletChanges.length > 0 then addWalletUpdate pending0 u walletChanges
          else pending0
        let payload0 := NewRewardPayload "level_up"
        let payload1 :=
          if walletChanges.length > 0 then
            { payload0 with Wallet := some { Gold := changesetDelta walletChanges "gold",
                                             Gems := changesetDelta walletChanges "gems",
                                             Treats := 0 } }
          else payload0
        let payload2 :=
          if grantedItems.length > 0 then
            { payload1 with Inventory := some { Items := grantedItems } }
          else payload1
        let hasContent := walletChanges.length > 0 ∨ grantedItems.length > 0
        let pending2 :=
          if hasContent then { pending1 with Payload := some payload2 } else pending1
        (.ok pending2, s2)

/-- The unlock entries `PrepareLevelRewards` appends to the payload
(ability then sprite, each only when a positive amount was granted);
the Go code ASSIGNS this list to `Payload.Progression.Unlocks`. -/
def levelUnlockEntries (ra : RewardAmounts) (itemType : String) (itemID : Nat) : List ProgressionUnlock :=
  (match ra.abilities with
   | some a => [{ System := itemType, ItemID := itemID, TypeName := "ability", Count := (a : Int) }]
   | none => []) ++
  (match ra.sprites with
   | some a => [{ System := itemType, ItemID := itemID, TypeName := "sprite", Count := (a : Int) }]
   | none => [])

/-- `PrepareLevelRewards` (errors-file): look up the level's configured
reward bundle (absence is "no reward", not an error), prepare the
rewards, and attach the progression-unlock payload entries. -/
def PrepareLevelRewards (G : Globals) (u treeName : String) (level : Int)
    (itemType : String) (itemID : Nat) (s : ServerState) :
    Except Err (Option PendingWrites) × ServerState :=
  match GetLevelTree G.gd treeName with
  | none => (.error .invalidLevelTree, s)
  | some tree =>
    match treeRewardAt tree level with
    | none => (.ok none, s)
    | some rewardData =>
      let ra : RewardAmounts :=
        { gold := rewardData.Gold, gems := rewardData.Gems,
          abilities := optPos rewardData.Abilities,
          sprites := optPos rewardData.Sprites,
          backgrounds := optPos rewardData.Backgrounds,
          pieceStyles := optPos rewardData.PieceStyles }
      match PrepareRewardItems G u ra itemType itemID s with
      | (.error e, s2) => (.error e, s2)
      | (.ok pending, s2) =>
        let unlocks := levelUnlockEntries ra itemType itemID
        let pending2 :=
          match pending.Payload with
          | none => pending
          | some pl =>
            if unlocks.length > 0 then
              let pd := match pl.Progression with
                | none => emptyProgressionDelta
                | some d => d
              { pending with Payload := some { pl with Progression := some { pd with Unlocks := unlocks } } }
            else pending
        (.ok (some pending2), s2)

/-- The diminishing-returns XP multiplier of `preparePlayerXP`
(100 %, 80 %, 60 %, 40 %, 25 % by daily match count), with the
minimum-1 floor.  Go computes `int(float64(xp) * m)`; the model uses
exact rational arithmetic with truncation toward zero, which no claim
distinguishes from the float computation. -/
def xpAdjust (xpAmount : Int) (matchesToday : Int) : Int :=
  let adjusted :=
    if matchesToday ≤ 1 then xpAmount
    else if matchesToday = 2 then (xpAmount * 8).tdiv 10
    else if matchesToday = 3 then (xpAmount * 6).tdiv 10
    else if matchesToday = 4 then (xpAmount * 4).tdiv 10
    else (xpAmount * 25).tdiv 100
  if adjusted < 1 then 1 else adjusted

/-- The level-rewards loop of `preparePlayerXP`: for every gained
level, prepare that level's rewards and merge them; a failing level is
skipped (logged in Go). -/
def levelRewardsLoop (G : Globals) (u treeName itemType : String) (itemID : Nat) :
    List Int → PendingWrites → ServerState → PendingWrites × ServerState
  | [], pending, s => (pending, s)
  | lvl :: rest, pending, s =>
    match PrepareLevelRewards G u treeName lvl itemType itemID s with
    | (.error _, s2) => levelRewardsLoop G u treeName itemType itemID rest pending s2
    | (.ok lr, s2) => levelRewardsLoop G u treeName itemType itemID rest (mergeWritesOpt pending lr) s2

/-- The levels `oldLevel+1 .. resultLevel` iterated by the Go reward
loop (empty unless `resultLevel > oldLevel`). -/
def gainedLevels (oldLevel resultLevel : Int) : List Int :=
  (List.range (resultLevel - oldLevel).toNat).map (fun i => oldLevel + 1 + (i : Int))

/-- `preparePlayerXP` (match_result.go): bump the daily match counter
(an immediate, non-batched write), scale the XP, prepare the deferred
player-progression update via the `playerXPUpdate` closure, and merge
any level-up rewards (itemType "player").  Returns (new level or 0,
deferred writes, daily match count, state). -/
def preparePlayerXP (G : Globals) (midnight : Int) (s : ServerState) (u : String)
    (xpAmount : Int) : Int × PendingWrites × Int × ServerState :=
  let mc := incrementDailyMatchCount midnight s u
  let adjustedXP := xpAdjust xpAmount mc.fst
  let gp := GetItemProgression mc.snd u ProgressionKeyPlayer 0
  let oldLevel := gp.fst.Level
  let newProg := playerXPUpdate G.gd adjustedXP gp.fst
  let resultLevel := if oldLevel < newProg.Level then newProg.Level else 0
  let progWrite : StorageWrite :=
    { Collection := storageCollectionProgression,
      Key := ProgressionKeyPlayer ++ toString (0 : Nat),
      UserID := u, Value := .progressionV newProg }
  let pending1 := addStorageWrite NewPendingWrites progWrite
  let loopRes := levelRewardsLoop G u playerLevelTreeName "player" 0
      (gainedLevels oldLevel resultLevel) pending1 gp.snd
  (resultLevel, loopRes.fst, mc.fst, loopRes.snd)

/-! ## Reward settlement (match_result.go processMatchRewards) -/

/-- The solo XP reduction of `processMatchRewards`: halve (integer
division) with a minimum of 1. -/
def soloXP (xp : Int) : Int :=
  let h := xp.tdiv 2
  if h < 1 then 1 else h

/-- The batch-building part of `processMatchRewards` (current
token-economy version): pre-read the wallet once (round tokens and drop
slots), prepare XP, compute tokens earned, decide the exchange, bank or
exchange the tokens, and append the match-history write.  Returns the
accumulated batch, the pre-commit state (after the direct daily-counter
and progression-initialization writes), and the response payload, whose
metadata is derived from the pre-read values.  The commit itself cannot
fail in the model (infrastructure failures are out of scope). -/
def matchRewardsPrepare (G : Globals) (now midnight : Int) (u : String)
    (req : MatchResultRequest) (isSolo : Bool) (s : ServerState) :
    PendingWrites × ServerState × RewardPayload :=
  let cfg := G.matchConfig
  let preTokens := s.wallet u walletKeyRoundTokens
  let preDrops := s.wallet u walletKeyDropsLeft
  let xpBase := if req.Won then cfg.WinXP else cfg.LossXP
  let xpAmount := if isSolo then soloXP xpBase else xpBase
  let px := preparePlayerXP G midnight s u xpAmount
  let resultLevel := px.fst
  let xpPending := px.snd.fst
  let matchesToday := px.snd.snd.fst
  let s1 := px.snd.snd.snd
  let pending0 := mergeWrites NewPendingWrites xpPending
  let pd0 := { emptyProgressionDelta with XpGranted := some xpAmount }
  let pd1 := if resultLevel > 0 then { pd0 with NewPlayerLevel := some resultLevel } else pd0
  let tokensEarned := computeTokensEarned req isSolo cfg
  let postTokens0 := preTokens + tokensEarned
  let willExchange := postTokens0 ≥ cfg.TokenExchangeThresh ∧ preDrops ≥ 1
  let postTokens :=
    if ¬ willExchange ∧ preDrops ≤ 0 ∧ postTokens0 > cfg.TokenExchangeThresh then
      cfg.TokenExchangeThresh
    else postTokens0
  let exch :=
    if willExchange then
      let pendingA := addWalletUpdate pending0 u
        [(walletKeyRoundTokens, tokensEarned - cfg.TokenExchangeThresh),
         (walletKeyDropsLeft, -1)]
      let tier := if req.Won then G.lootboxConfig.MatchWinTier else G.lootboxConfig.MatchLossTier
      let lbPair := PrepareCreateLootbox u tier now
      (addStorageWrite pendingA lbPair.snd,
        [({ ID := lbPair.fst.ID, Tier := lbPair.fst.Tier, Source := "token_exchange" } : LootboxGrant)])
    else
      let delta := postTokens - preTokens
      (if delta > 0 then addWalletUpdate pending0 u [(walletKeyRoundTokens, delta)] else pending0,
        ([] : List LootboxGrant))
  let pending2 := addStorageWrite exch.fst
    { Collection := storageCollectionMatchHistory, Key := storageKeyLastMatch,
      UserID := u, Value := .matchHistoryV { LastMatchTime := now } }
  let finalTokens := postTokens
  let finalDrops := if willExchange then preDrops - 1 else preDrops
  let result : RewardPayload :=
    { NewRewardPayload "match" with
        ReasonKey := "reward.match.complete",
        Progression := some pd1,
        Lootboxes := exch.snd,
        Meta := some { DropsRemaining := some finalDrops, NextDropRefresh := none,
                       DailyMatches := some matchesToday, RoundTokens := some finalTokens,
                       TokensEarned := none } }
  (pending2, s1, result)

/-- `processMatchRewards` proper: prepare the whole batch (and the
response payload, which is derived from the pre-read values), commit it
atomically, then clear the active match as the post-commit follow-up
step. -/
def processMatchRewards (G : Globals) (now midnight : Int) (u : String)
    (req : MatchResultRequest) (isSolo : Bool) (s : ServerState) :
    RewardPayload × ServerState :=
  let prep := matchRewardsPrepare G now midnight u req isSolo s
  let s2 := commitPendingWrites prep.snd.fst prep.fst
  (prep.snd.snd, clearActiveMatch s2 u)

/-- The consensus-role switch of `RpcSubmitMatchResult`
(match_result.go): "pending", "resolved" and "conflict" all void the
submitter's claimed win; only "ok" (and the solo short-circuit) keep
it. -/
def actualWonOf (consensusResult : String) (claimedWin : Bool) : Bool :=
  match consensusResult with
  | "pending" => false
  | "resolved" => false
  | "conflict" => false
  | _ => claimedWin

/-- `RpcSubmitMatchResult` (match_result.go): rate limit, round
self-heal, active-match validation, write-first consensus, the
role-based win downgrade, equipped-item validation, and reward
settlement.  The deferred-win-bonus step is a documented no-op in the
Go source (`processDeferredWinBonus` returns nil, nil and the
notification send is skipped), so it is not modelled. -/
def RpcSubmitMatchResult (G : Globals) (now midnight : Int) (u : String)
    (req0 : MatchResultRequest) (s : ServerState) :
    Except Err RewardPayload × ServerState :=
  match checkMatchRateLimit now s u with
  | some e => (.error e, s)
  | none =>
    let req := validateRounds req0
    match validateActiveMatch now u req.MatchID s with
    | (.error e, s1) => (.error e, s1)
    | (.ok activeMatch, s1) =>
      let cr := resolveMatchConsensus now s1 u activeMatch.OpponentID req.MatchID req.Won req.FinalScore
      let consensusResult := cr.fst
      let s2 := cr.snd
      let isSolo := activeMatch.OpponentID = ""
      let actualWon := actualWonOf consensusResult req.Won
      if ¬ ValidateItemExists G.gd storageKeyPet req.EquippedPetID then (.error .invalidItemID, s2)
      else if ¬ ValidateItemExists G.gd storageKeyClass req.EquippedClassID then (.error .invalidItemID, s2)
      else
        let req2 := { req with Won := actualWon }
        let pr := processMatchRewards G now midnight u req2 isSolo s2
        (.ok pr.fst, pr.snd)

/-! ## Separation lemmas: storage writes and wallet updates commute -/

theorem wallet_setObj (s : ServerState) (c u k : String) (v : StorageValue) :
    (setObj s c u k v).wallet = s.wallet := rfl

theorem wallet_delObj (s : ServerState) (c u k : String) :
    (delObj s c u k).wallet = s.wallet := rfl

theorem storage_applyWalletUpdate (s : ServerState) (wu : WalletUpdate) :
    (applyWalletUpdate s wu).storage = s.storage := rfl

theorem getObj_delObj_ne (s : ServerState) (c u k c2 u2 k2 : String)
    (h : ¬ (c2 = c ∧ u2 = u ∧ k2 = k)) :
    getObj (delObj s c u k) c2 u2 k2 = getObj s c2 u2 k2 := by
  simp [getObj, delObj, h]

theorem storage_foldl_applyWalletUpdate (ws : List WalletUpdate) (s : ServerState) :
    (ws.foldl applyWalletUpdate s).storage = s.storage := by
  induction ws generalizing s with
  | nil => rfl
  | cons w rest ih => rw [List.foldl_cons, ih, storage_applyWalletUpdate]

theorem wallet_foldl_applyStorageWrite (l : List StorageWrite) (s : ServerState) :
    (l.foldl applyStorageWrite s).wallet = s.wallet := by
  induction l generalizing s with
  | nil => rfl
  | cons w rest ih => rw [List.foldl_cons, ih]; rfl

/-- One wallet-update fold step in terms of the per-update delta. -/
theorem wallet_foldl_applyWalletUpdate (ws : List WalletUpdate) (s : ServerState) (u c : String) :
    (ws.foldl applyWalletUpdate s).wallet u c =
      s.wallet u c +
        (ws.map (fun wu => if wu.UserID = u then changesetDelta wu.Changeset c else 0)).sum := by
  induction ws generalizing s with
  | nil => simp
  | cons w rest ih =>
    rw [List.foldl_cons, ih]
    simp only [List.map_cons, List.sum_cons]
    unfold applyWalletUpdate
    by_cases hu : w.UserID = u
    · subst hu
      simp
      ring
    · have hne : ¬ u = w.UserID := fun h => hu h.symm
      simp [hne, hu]

/-- The committed wallet balance is the pre-commit balance plus the
batch's net delta for that (player, currency) key. -/
theorem commit_wallet (s : ServerState) (pw : PendingWrites) (u c : String) :
    (commitPendingWrites s pw).wallet u c = s.wallet u c + netDelta pw u c := by
  unfold commitPendingWrites netDelta
  rw [wallet_foldl_applyWalletUpdate, wallet_foldl_applyStorageWrite]

/-- Reads depend only on the storage component. -/
theorem readMatchHistory_congr (s s2 : ServerState) (u : String)
    (h : s.storage = s2.storage) : readMatchHistory s u = readMatchHistory s2 u := by
  unfold readMatchHistory getObj
  rw [h]

theorem readActiveMatch_congr (s s2 : ServerState) (u : String)
    (h : s.storage = s2.storage) : readActiveMatch s u = readActiveMatch s2 u := by
  unfold readActiveMatch getObj
  rw [h]

theorem readMatchHistory_clearActiveMatch (s : ServerState) (u u2 : String) :
    readMatchHistory (clearActiveMatch s u) u2 = readMatchHistory s u2 := by
  unfold readMatchHistory clearActiveMatch
  rw [getObj_delObj_ne]
  intro h
  have : storageCollectionMatchHistory = storageCollectionActiveMatch := h.1
  simp [storageCollectionMatchHistory, storageCollectionActiveMatch] at this

theorem wallet_clearActiveMatch (s : ServerState) (u : String) :
    (clearActiveMatch s u).wallet = s.wallet := rfl

/-- Committing a batch whose final storage write is the match-history
stamp leaves exactly that record readable. -/
theorem readMatchHistory_commit_lastHistory (s : ServerState) (pw : PendingWrites)
    (u : String) (now : Int) :
    readMatchHistory
      (commitPendingWrites s (addStorageWrite pw
        { Collection := storageCollectionMatchHistory, Key := storageKeyLastMatch,
          UserID := u, Value := .matchHistoryV { LastMatchTime := now } })) u =
      some { LastMatchTime := now } := by
  unfold commitPendingWrites addStorageWrite
  rw [readMatchHistory_congr _ _ u (storage_foldl_applyWalletUpdate _ _)]
  dsimp only
  rw [List.foldl_concat]
  unfold readMatchHistory applyStorageWrite
  rw [getObj_setObj_same]

/-! ## The player-level reward path contributes nothing to the batch -/

/-- "player" is not a valid item category for `ValidateItemExists`. -/
theorem ValidateItemExists_player (gd : GameDataStuct) (id : Nat) :
    ValidateItemExists gd "player" id = false := by
  unfold ValidateItemExists
  simp [storageKeyPet, storageKeyClass, storageKeyBackground, storageKeyPieceStyle]

/-- Level rewards prepared for item type "player" always come back as
an error (the item-existence guard rejects the category) or as no
rewards at all, with the state untouched; the Go caller skips the merge
in both cases. -/
theorem PrepareLevelRewards_player (G : Globals) (u treeName : String) (lvl : Int)
    (s : ServerState) :
    (∃ e, PrepareLevelRewards G u treeName lvl "player" 0 s = (.error e, s)) ∨
    PrepareLevelRewards G u treeName lvl "player" 0 s = (.ok none, s) := by
  unfold PrepareLevelRewards
  rcases h1 : GetLevelTree G.gd treeName with _ | tree
  · exact Or.inl ⟨.invalidLevelTree, rfl⟩
  · rcases h2 : treeRewardAt tree lvl with _ | rd
    · right
      simp only [h2]
    · left
      refine ⟨.invalidItemID, ?_⟩
      simp only [h2]
      unfold PrepareRewardItems
      rw [ValidateItemExists_player]
      simp

/-- The level-rewards loop for "player" returns its accumulator and
state unchanged. -/
theorem levelRewardsLoop_player (G : Globals) (u treeName : String) (lvls : List Int)
    (pending : PendingWrites) (s : ServerState) :
    levelRewardsLoop G u treeName "player" 0 lvls pending s = (pending, s) := by
  induction lvls generalizing pending s with
  | nil => rfl
  | cons lvl rest ih =>
    unfold levelRewardsLoop
    rcases PrepareLevelRewards_player G u treeName lvl s with ⟨e, he⟩ | hok
    · rw [he]
      exact ih pending s
    · rw [hok]
      show levelRewardsLoop G u treeName "player" 0 rest (mergeWritesOpt pending none) s = (pending, s)
      rw [show mergeWritesOpt pending none = pending from rfl]
      exact ih pending s

/-- The deferred batch prepared by `preparePlayerXP` is exactly the one
player-progression write: no loot-container writes, no ledger
deltas. -/
theorem preparePlayerXP_pending (G : Globals) (midnight : Int) (s : ServerState)
    (u : String) (xp : Int) :
    (preparePlayerXP G midnight s u xp).snd.fst =
      { StorageWrites :=
          [{ Collection := storageCollectionProgression,
             Key := ProgressionKeyPlayer ++ toString (0 : Nat),
             UserID := u,
             Value := .progressionV (playerXPUpdate G.gd
               (xpAdjust xp (incrementDailyMatchCount midnight s u).fst)
               (GetItemProgression (incrementDailyMatchCount midnight s u).snd u ProgressionKeyPlayer 0).fst) }],
        WalletUpdates := [], Payload := none } ∧
    (preparePlayerXP G midnight s u xp).snd.snd.snd =
      (GetItemProgression (incrementDailyMatchCount midnight s u).snd u ProgressionKeyPlayer 0).snd := by
  unfold preparePlayerXP
  dsimp only
  rw [levelRewardsLoop_player]
  constructor
  · simp [addStorageWrite, NewPendingWrites]
  · rfl

/-! ## Effects of the pre-commit writes on unrelated keys -/

theorem wallet_incrementDaily (midnight : Int) (s : ServerState) (u : String) :
    (incrementDailyMatchCount midnight s u).snd.wallet = s.wallet := rfl

theorem wallet_GetItemProgression (s : ServerState) (u kp : String) (id : Nat) :
    (GetItemProgression s u kp id).snd.wallet = s.wallet := by
  unfold GetItemProgression
  dsimp only
  cases h : readProgression s u (kp ++ toString id) <;> rfl

/-- The wallet is untouched by everything `preparePlayerXP` writes
directly (daily counter, progression initialization). -/
theorem preparePlayerXP_wallet (G : Globals) (midnight : Int) (s : ServerState)
    (u : String) (xp : Int) :
    (preparePlayerXP G midnight s u xp).snd.snd.snd.wallet = s.wallet := by
  obtain ⟨-, hstate⟩ := preparePlayerXP_pending G midnight s u xp
  rw [hstate, wallet_GetItemProgression, wallet_incrementDaily]

theorem getLootbox_incrementDaily (midnight : Int) (s : ServerState) (u u2 k : String) :
    getObj (incrementDailyMatchCount midnight s u).snd storageCollectionLootboxes u2 k =
      getObj s storageCollectionLootboxes u2 k := by
  unfold incrementDailyMatchCount
  dsimp only
  rw [getObj_setObj_ne]
  rintro ⟨h, -⟩
  simp [storageCollectionLootboxes, storageCollectionDrops] at h

theorem getLootbox_GetItemProgression (s : ServerState) (u kp : String) (id : Nat) (u2 k : String) :
    getObj (GetItemProgression s u kp id).snd storageCollectionLootboxes u2 k =
      getObj s storageCollectionLootboxes u2 k := by
  unfold GetItemProgression
  dsimp only
  cases h : readProgression s u (kp ++ toString id) with
  | some p => rfl
  | none =>
    dsimp only
    rw [getObj_setObj_ne]
    rintro ⟨hc, -⟩
    simp [storageCollectionLootboxes, storageCollectionProgression] at hc

theorem getLootbox_preparePlayerXP (G : Globals) (midnight : Int) (s : ServerState)
    (u : String) (xp : Int) (u2 k : String) :
    getObj (preparePlayerXP G midnight s u xp).snd.snd.snd storageCollectionLootboxes u2 k =
      getObj s storageCollectionLootboxes u2 k := by
  obtain ⟨-, hstate⟩ := preparePlayerXP_pending G midnight s u xp
  rw [hstate, getLootbox_GetItemProgression, getLootbox_incrementDaily]

/-- C1 support: the settled state after `processMatchRewards` has no
active-match record and carries the fresh settlement timestamp. -/
theorem processMatchRewards_post (G : Globals) (now midnight : Int) (u : String)
    (req : MatchResultRequest) (isSolo : Bool) (s : ServerState) :
    readActiveMatch (processMatchRewards G now midnight u req isSolo s).snd u = none ∧
    readMatchHistory (processMatchRewards G now midnight u req isSolo s).snd u =
      some { LastMatchTime := now } := by
  unfold processMatchRewards matchRewardsPrepare
  dsimp only
  constructor
  · exact readActiveMatch_clear _ u
  · rw [readMatchHistory_clearActiveMatch, readMatchHistory_commit_lastHistory]

/-! ## Batch observations for the exchange claim -/

/-- Number of loot-container writes in a batch. -/
def lootboxWriteCount (pw : PendingWrites) : Nat :=
  (pw.StorageWrites.filter (fun w => w.Collection = storageCollectionLootboxes)).length

theorem netDelta_addStorageWrite (pw : PendingWrites) (w : StorageWrite) (u c : String) :
    netDelta (addStorageWrite pw w) u c = netDelta pw u c := by
  simp [netDelta, addStorageWrite]

theorem netDelta_addWalletUpdate (pw : PendingWrites) (u0 : String)
    (cs : List (String × Int)) (u c : String) :
    netDelta (addWalletUpdate pw u0 cs) u c =
      netDelta pw u c + (if u0 = u then changesetDelta cs c else 0) := by
  simp [netDelta, addWalletUpdate]

theorem lootboxWriteCount_addStorageWrite (pw : PendingWrites) (w : StorageWrite) :
    lootboxWriteCount (addStorageWrite pw w) =
      lootboxWriteCount pw + (if w.Collection = storageCollectionLootboxes then 1 else 0) := by
  by_cases h : w.Collection = storageCollectionLootboxes <;>
    simp [lootboxWriteCount, addStorageWrite, h]

theorem lootboxWriteCount_addWalletUpdate (pw : PendingWrites) (u0 : String)
    (cs : List (String × Int)) :
    lootboxWriteCount (addWalletUpdate pw u0 cs) = lootboxWriteCount pw := by
  simp [lootboxWriteCount, addWalletUpdate]

theorem netDelta_noWallet (l : List StorageWrite) (p : Option RewardPayload) (u c : String) :
    netDelta { StorageWrites := l, WalletUpdates := [], Payload := p } u c = 0 := by
  simp [netDelta]

theorem matchRewardsPrepare_wallet (G : Globals) (now midnight : Int) (u : String)
    (req : MatchResultRequest) (isSolo : Bool) (s : ServerState) :
    (matchRewardsPrepare G now midnight u req isSolo s).snd.fst.wallet = s.wallet := by
  unfold matchRewardsPrepare
  dsimp only
  exact preparePlayerXP_wallet G midnight s u _

theorem processMatchRewards_wallet (G : Globals) (now midnight : Int) (u : String)
    (req : MatchResultRequest) (isSolo : Bool) (s : ServerState) (u2 c : String) :
    (processMatchRewards G now midnight u req isSolo s).snd.wallet u2 c =
      s.wallet u2 c + netDelta (matchRewardsPrepare G now midnight u req isSolo s).fst u2 c := by
  unfold processMatchRewards
  dsimp only
  rw [wallet_clearActiveMatch, commit_wallet, matchRewardsPrepare_wallet]

/-- Merging a batch that holds a single storage write into a fresh
accumulator yields just that batch. -/
theorem mergeWrites_empty_single (w : StorageWrite) :
    mergeWrites NewPendingWrites
        { StorageWrites := [w], WalletUpdates := [], Payload := none } =
      { StorageWrites := [w], WalletUpdates := [], Payload := none } := by
  simp [mergeWrites, NewPendingWrites]

/-- Shape of the committed batch built by `matchRewardsPrepare`:
exactly one loot-container write and the (earned − threshold, −1)
ledger deltas when the exchange fires; no loot-container write and the
banked (possibly clamped, possibly zero) round-token delta when it
does not. -/
theorem matchRewardsBatch_shape (G : Globals) (now midnight : Int) (u : String)
    (req : MatchResultRequest) (isSolo : Bool) (s : ServerState) :
    (s.wallet u walletKeyRoundTokens + computeTokensEarned req isSolo G.matchConfig ≥
        G.matchConfig.TokenExchangeThresh ∧ s.wallet u walletKeyDropsLeft ≥ 1 →
      lootboxWriteCount (matchRewardsPrepare G now midnight u req isSolo s).fst = 1 ∧
      netDelta (matchRewardsPrepare G now midnight u req isSolo s).fst u walletKeyRoundTokens =
        computeTokensEarned req isSolo G.matchConfig - G.matchConfig.TokenExchangeThresh ∧
      netDelta (matchRewardsPrepare G now midnight u req isSolo s).fst u walletKeyDropsLeft = -1) ∧
    (¬ (s.wallet u walletKeyRoundTokens + computeTokensEarned req isSolo G.matchConfig ≥
        G.matchConfig.TokenExchangeThresh ∧ s.wallet u walletKeyDropsLeft ≥ 1) →
      lootboxWriteCount (matchRewardsPrepare G now midnight u req isSolo s).fst = 0 ∧
      netDelta (matchRewardsPrepare G now midnight u req isSolo s).fst u walletKeyDropsLeft = 0 ∧
      netDelta (matchRewardsPrepare G now midnight u req isSolo s).fst u walletKeyRoundTokens =
        (if (if s.wallet u walletKeyDropsLeft ≤ 0 ∧
                s.wallet u walletKeyRoundTokens + computeTokensEarned req isSolo G.matchConfig >
                  G.matchConfig.TokenExchangeThresh then
              G.matchConfig.TokenExchangeThresh
             else s.wallet u walletKeyRoundTokens + computeTokensEarned req isSolo G.matchConfig) -
              s.wallet u walletKeyRoundTokens > 0 then
          (if s.wallet u walletKeyDropsLeft ≤ 0 ∧
                s.wallet u walletKeyRoundTokens + computeTokensEarned req isSolo G.matchConfig >
                  G.matchConfig.TokenExchangeThresh then
              G.matchConfig.TokenExchangeThresh
           else s.wallet u walletKeyRoundTokens + computeTokensEarned req isSolo G.matchConfig) -
            s.wallet u walletKeyRoundTokens
         else 0)) := by
  unfold matchRewardsPrepare
  dsimp only
  rw [(preparePlayerXP_pending G midnight s u _).1, mergeWrites_empty_single]
  constructor
  · intro hwe
    rw [if_pos hwe]
    dsimp only
    simp only [lootboxWriteCount_addStorageWrite, lootboxWriteCount_addWalletUpdate,
      netDelta_addStorageWrite, netDelta_addWalletUpdate, netDelta_noWallet]
    refine ⟨?_, ?_, ?_⟩ <;>
      simp [lootboxWriteCount, changesetDelta, PrepareCreateLootbox,
        walletKeyRoundTokens, walletKeyDropsLeft,
        storageCollectionLootboxes, storageCollectionMatchHistory, storageCollectionProgression]
  · intro hnwe
    rw [if_neg hnwe]
    dsimp only
    by_cases hdt : s.wallet u walletKeyDropsLeft ≤ 0 ∧
        s.wallet u walletKeyRoundTokens + computeTokensEarned req isSolo G.matchConfig >
          G.matchConfig.TokenExchangeThresh
    · have hcond : ¬ (s.wallet u walletKeyRoundTokens + computeTokensEarned req isSolo G.matchConfig ≥
          G.matchConfig.TokenExchangeThresh ∧ s.wallet u walletKeyDropsLeft ≥ 1) ∧
          s.wallet u walletKeyDropsLeft ≤ 0 ∧
          s.wallet u walletKeyRoundTokens + computeTokensEarned req isSolo G.matchConfig >
            G.matchConfig.TokenExchangeThresh := ⟨hnwe, hdt.1, hdt.2⟩
      rw [if_pos hcond, if_pos hdt]
      by_cases hdelta : G.matchConfig.TokenExchangeThresh - s.wallet u walletKeyRoundTokens > 0
      · rw [if_pos hdelta, if_pos hdelta]
        simp only [lootboxWriteCount_addStorageWrite, lootboxWriteCount_addWalletUpdate,
          netDelta_addStorageWrite, netDelta_addWalletUpdate, netDelta_noWallet]
        refine ⟨?_, ?_, ?_⟩ <;>
          simp [lootboxWriteCount, changesetDelta,
            walletKeyRoundTokens, walletKeyDropsLeft,
            storageCollectionMatchHistory, storageCollectionProgression,
            storageCollectionLootboxes]
      · rw [if_neg hdelta, if_neg hdelta]
        simp only [lootboxWriteCount_addStorageWrite,
          netDelta_addStorageWrite, netDelta_noWallet]
        refine ⟨?_, ?_, ?_⟩ <;>
          simp [lootboxWriteCount,
            storageCollectionMatchHistory, storageCollectionProgression,
            storageCollectionLootboxes]
    · have hcond : ¬ (¬ (s.wallet u walletKeyRoundTokens + computeTokensEarned req isSolo G.matchConfig ≥
          G.matchConfig.TokenExchangeThresh ∧ s.wallet u walletKeyDropsLeft ≥ 1) ∧
          s.wallet u walletKeyDropsLeft ≤ 0 ∧
          s.wallet u walletKeyRoundTokens + computeTokensEarned req isSolo G.matchConfig >
            G.matchConfig.TokenExchangeThresh) := fun h => hdt ⟨h.2.1, h.2.2⟩
      rw [if_neg hcond, if_neg hdt]
      by_cases hdelta : s.wallet u walletKeyRoundTokens + computeTokensEarned req isSolo G.matchConfig -
          s.wallet u walletKeyRoundTokens > 0
      · rw [if_pos hdelta, if_pos hdelta]
        simp only [lootboxWriteCount_addStorageWrite, lootboxWriteCount_addWalletUpdate,
          netDelta_addStorageWrite, netDelta_addWalletUpdate, netDelta_noWallet]
        refine ⟨?_, ?_, ?_⟩ <;>
          simp [lootboxWriteCount, changesetDelta,
            walletKeyRoundTokens, walletKeyDropsLeft,
            storageCollectionMatchHistory, storageCollectionProgression,
            storageCollectionLootboxes]
      · rw [if_neg hdelta, if_neg hdelta]
        simp only [lootboxWriteCount_addStorageWrite,
          netDelta_addStorageWrite, netDelta_noWallet]
        refine ⟨?_, ?_, ?_⟩ <;>
          simp [lootboxWriteCount,
            storageCollectionMatchHistory, storageCollectionProgression,
            storageCollectionLootboxes]

/-- C7: exchange semantics of match settlement.  When the pre-read
token balance plus earned tokens reaches the threshold and a drop slot
is available, the committed batch carries exactly one loot-container
write, a −1 drop-slot delta, and an `earned − threshold` round-token
delta, so the post-commit balance is `pre + earned − threshold` (the
excess over the threshold of the combined balance); when the exchange
does not fire, the batch carries no loot-container write, the
drop-slot balance is untouched, and the earned amount is banked in
full, clamped at the threshold when no drop slots remain. -/
theorem C7_exchange_semantics (G : Globals) (now midnight : Int) (u : String)
    (req : MatchResultRequest) (isSolo : Bool) (s : ServerState) :
    (s.wallet u walletKeyRoundTokens + computeTokensEarned req isSolo G.matchConfig ≥
        G.matchConfig.TokenExchangeThresh ∧ s.wallet u walletKeyDropsLeft ≥ 1 →
      lootboxWriteCount (matchRewardsPrepare G now midnight u req isSolo s).fst = 1 ∧
      netDelta (matchRewardsPrepare G now midnight u req isSolo s).fst u walletKeyRoundTokens =
        computeTokensEarned req isSolo G.matchConfig - G.matchConfig.TokenExchangeThresh ∧
      netDelta (matchRewardsPrepare G now midnight u req isSolo s).fst u walletKeyDropsLeft = -1 ∧
      (processMatchRewards G now midnight u req isSolo s).snd.wallet u walletKeyRoundTokens =
        s.wallet u walletKeyRoundTokens + computeTokensEarned req isSolo G.matchConfig -
          G.matchConfig.TokenExchangeThresh ∧
      (processMatchRewards G now midnight u req isSolo s).snd.wallet u walletKeyDropsLeft =
        s.wallet u walletKeyDropsLeft - 1) ∧
    (¬ (s.wallet u walletKeyRoundTokens + computeTokensEarned req isSolo G.matchConfig ≥
        G.matchConfig.TokenExchangeThresh ∧ s.wallet u walletKeyDropsLeft ≥ 1) →
      lootboxWriteCount (matchRewardsPrepare G now midnight u req isSolo s).fst = 0 ∧
      (processMatchRewards G now midnight u req isSolo s).snd.wallet u walletKeyDropsLeft =
        s.wallet u walletKeyDropsLeft ∧
      (1 ≤ s.wallet u walletKeyDropsLeft → 0 ≤ computeTokensEarned req isSolo G.matchConfig →
        (processMatchRewards G now midnight u req isSolo s).snd.wallet u walletKeyRoundTokens =
          s.wallet u walletKeyRoundTokens + computeTokensEarned req isSolo G.matchConfig) ∧
      (s.wallet u walletKeyDropsLeft ≤ 0 →
        s.wallet u walletKeyRoundTokens + computeTokensEarned req isSolo G.matchConfig >
          G.matchConfig.TokenExchangeThresh →
        s.wallet u walletKeyRoundTokens ≤ G.matchConfig.TokenExchangeThresh →
        (processMatchRewards G now midnight u req isSolo s).snd.wallet u walletKeyRoundTokens =
          G.matchConfig.TokenExchangeThresh) ∧
      (s.wallet u walletKeyRoundTokens + computeTokensEarned req isSolo G.matchConfig ≤
          G.matchConfig.TokenExchangeThresh →
        0 ≤ computeTokensEarned req isSolo G.matchConfig →
        (processMatchRewards G now midnight u req isSolo s).snd.wallet u walletKeyRoundTokens =
          s.wallet u walletKeyRoundTokens + computeTokensEarned req isSolo G.matchConfig)) := by
  obtain ⟨hfire, hnofire⟩ := matchRewardsBatch_shape G now midnight u req isSolo s
  constructor
  · intro h
    obtain ⟨hc, hrt, hdl⟩ := hfire h
    refine ⟨hc, hrt, hdl, ?_, ?_⟩
    · rw [processMatchRewards_wallet, hrt]
      omega
    · rw [processMatchRewards_wallet, hdl]
      omega
  · intro h
    obtain ⟨hc, hdl, hrt⟩ := hnofire h
    refine ⟨hc, ?_, ?_, ?_, ?_⟩
    · rw [processMatchRewards_wallet, hdl]
      omega
    · intro hdrops hearn
      rw [processMatchRewards_wallet, hrt]
      have hlt : ¬ (s.wallet u walletKeyRoundTokens + computeTokensEarned req isSolo G.matchConfig ≥
          G.matchConfig.TokenExchangeThresh) := fun hge => h ⟨hge, hdrops⟩
      split_ifs <;> omega
    · intro hdrops hover hpre
      rw [processMatchRewards_wallet, hrt]
      split_ifs <;> omega
    · intro hle hearn
      rw [processMatchRewards_wallet, hrt]
      split_ifs <;> omega

/-! ## Concrete test world shared by the end-to-end scenarios -/

def petC : Pet :=
  { SpriteCount := 1, AbilityIDs := [], BackgroundIDs := [], StyleIDs := [], LevelTreeName := "" }

def classC : ClassItem :=
  { SpriteCount := 1, AbilityIDs := [], BackgroundIDs := [], StyleIDs := [], LevelTreeName := "" }

def gdC : GameDataStuct :=
  { Pets := [(0, petC)], Classes := [(0, classC)], Backgrounds := [], PieceStyles := [],
    LevelTrees := [] }

def GC : Globals :=
  { gd := gdC, matchConfig := GetMatchConfig, lootboxConfig := GetLootboxConfig }

/-- A solo active match for "alice", started at time 0. -/
def amC : ActiveMatch := { MatchID := "m1", StartTime := 0, OpponentID := "" }

def sC : ServerState := writeActiveMatch emptyState "alice" amC

/-- A submission for that match with one round won. -/
def reqC : MatchResultRequest :=
  { MatchID := "m1", Won := true, FinalScore := 7, RoundsWon := 1, RoundsLost := 0,
    Rounds := [{ RoundNumber := 1, PlayerWon := true, DurationSec := 30 }],
    EquippedPetID := 0, EquippedClassID := 0 }

/-- State for the exchange scenario: "alice" holds 4 half-token units
and 1 drop slot (and the solo active match of `sC`). -/
def sE : ServerState :=
  { storage := sC.storage,
    wallet := fun u c =>
      if u = "alice" ∧ c = walletKeyRoundTokens then 4
      else if u = "alice" ∧ c = walletKeyDropsLeft then 1
      else 0 }

/-- Three solo rounds (3 half-token units earned). -/
def reqE : MatchResultRequest :=
  { MatchID := "m1", Won := false, FinalScore := 1, RoundsWon := 0, RoundsLost := 3,
    Rounds := [{ RoundNumber := 1, PlayerWon := false, DurationSec := 30 },
               { RoundNumber := 2, PlayerWon := false, DurationSec := 30 },
               { RoundNumber := 3, PlayerWon := false, DurationSec := 30 }],
    EquippedPetID := 0, EquippedClassID := 0 }

/-- C7, counterexample: with 4 banked half-units, 1 drop slot and 3
half-units earned, the exchange fires and the committed post-balance
is 4 + 3 − 6 = 1, which differs from the claimed `earned − threshold`
= 3 − 6 = −3. -/
theorem C7_post_balance_counterexample :
    computeTokensEarned reqE true GetMatchConfig = 3 ∧
    sE.wallet "alice" walletKeyRoundTokens = 4 ∧
    sE.wallet "alice" walletKeyDropsLeft = 1 ∧
    (processMatchRewards GC 20000 0 "alice" reqE true sE).snd.wallet "alice" walletKeyRoundTokens = 1 ∧
    (1 : Int) ≠ computeTokensEarned reqE true GetMatchConfig - GetMatchConfig.TokenExchangeThresh := by
  refine ⟨by decide, by decide, by decide, ?_, by decide⟩
  decide

/-- Witness for `C7_exchange_semantics` at the concrete exchange
scenario. -/
theorem C7_exchange_semantics_witness :
    (sE.wallet "alice" walletKeyRoundTokens + computeTokensEarned reqE true GC.matchConfig ≥
        GC.matchConfig.TokenExchangeThresh ∧ sE.wallet "alice" walletKeyDropsLeft ≥ 1) ∧
    (lootboxWriteCount (matchRewardsPrepare GC 20000 0 "alice" reqE true sE).fst = 1 ∧
      netDelta (matchRewardsPrepare GC 20000 0 "alice" reqE true sE).fst "alice" walletKeyRoundTokens =
        computeTokensEarned reqE true GC.matchConfig - GC.matchConfig.TokenExchangeThresh ∧
      netDelta (matchRewardsPrepare GC 20000 0 "alice" reqE true sE).fst "alice" walletKeyDropsLeft = -1 ∧
      (processMatchRewards GC 20000 0 "alice" reqE true sE).snd.wallet "alice" walletKeyRoundTokens =
        sE.wallet "alice" walletKeyRoundTokens + computeTokensEarned reqE true GC.matchConfig -
          GC.matchConfig.TokenExchangeThresh ∧
      (processMatchRewards GC 20000 0 "alice" reqE true sE).snd.wallet "alice" walletKeyDropsLeft =
        sE.wallet "alice" walletKeyDropsLeft - 1) :=
  ⟨⟨by decide, by decide⟩,
    (C7_exchange_semantics GC 20000 0 "alice" reqE true sE).1 ⟨by decide, by decide⟩⟩

/-- C10: the rate-limit gate.  Any submission made less than 15 seconds
after the player's last recorded settlement is rejected with the
rate-limit error and no state change, before round validation,
active-match validation, consensus, or reward computation runs, and
regardless of the submitted match identifier (the request is not even
inspected). -/
theorem C10_rate_limit_gate (G : Globals) (now midnight t : Int) (u : String)
    (req : MatchResultRequest) (s : ServerState)
    (hh : readMatchHistory s u = some { LastMatchTime := t })
    (hlt : now - t < minRateLimitMs) :
    RpcSubmitMatchResult G now midnight u req s = (.error .rateLimitExceeded, s) := by
  unfold RpcSubmitMatchResult checkMatchRateLimit
  rw [hh]
  simp [hlt]

/-- State with a settlement recorded at t = 10000 ms. -/
def sH : ServerState :=
  setObj sC storageCollectionMatchHistory "alice" storageKeyLastMatch
    (.matchHistoryV { LastMatchTime := 10000 })

/-- Witness for `C10_rate_limit_gate` 10 s after a settlement. -/
theorem C10_rate_limit_gate_witness :
    readMatchHistory sH "alice" = some { LastMatchTime := 10000 } ∧
    (20000 : Int) - 10000 < minRateLimitMs ∧
    RpcSubmitMatchResult GC 20000 0 "alice" reqC sH = (.error .rateLimitExceeded, sH) :=
  ⟨rfl, by decide, C10_rate_limit_gate GC 20000 0 10000 "alice" reqC sH rfl (by decide)⟩

/-- C1, counterexample: after a successful settlement, a retry of the
same (matchID, playerID) submission does NOT return the previously
computed response — it is rejected (rate-limit error within 15 s,
no-active-match error afterwards), because no result cache exists.
The retry also leaves the round-token balance untouched. -/
theorem C1_no_result_cache_counterexample :
    (RpcSubmitMatchResult GC 20000 0 "alice" reqC sC).fst.isOk = true ∧
    (RpcSubmitMatchResult GC 21000 0 "alice" reqC
        (RpcSubmitMatchResult GC 20000 0 "alice" reqC sC).snd).fst = .error .rateLimitExceeded ∧
    (RpcSubmitMatchResult GC 40000 0 "alice" reqC
        (RpcSubmitMatchResult GC 20000 0 "alice" reqC sC).snd).fst = .error .noActiveMatch ∧
    (RpcSubmitMatchResult GC 21000 0 "alice" reqC
        (RpcSubmitMatchResult GC 20000 0 "alice" reqC sC).snd).fst ≠
      (RpcSubmitMatchResult GC 20000 0 "alice" reqC sC).fst ∧
    (RpcSubmitMatchResult GC 21000 0 "alice" reqC
        (RpcSubmitMatchResult GC 20000 0 "alice" reqC sC).snd).snd.wallet "alice" walletKeyRoundTokens =
      (RpcSubmitMatchResult GC 20000 0 "alice" reqC sC).snd.wallet "alice" walletKeyRoundTokens := by
  refine ⟨by decide, by decide, by decide, ?_, by decide⟩
  intro heq
  have h1 : (RpcSubmitMatchResult GC 20000 0 "alice" reqC sC).fst.isOk = true := by decide
  rw [← heq] at h1
  have h2 : (RpcSubmitMatchResult GC 21000 0 "alice" reqC
      (RpcSubmitMatchResult GC 20000 0 "alice" reqC sC).snd).fst = .error .rateLimitExceeded := by
    decide
  rw [h2] at h1
  exact Bool.noConfusion h1

set_option maxHeartbeats 1000000 in
/-- C1, amended: settlement is at-most-once, enforced by rejection
rather than by a response cache.  A successful submission clears the
active-match record and stamps the settlement time; any repeated
submission in that settled state is rejected — with the rate-limit
error when made less than 15 s after the recorded settlement,
otherwise with the no-active-match error — and leaves the state (in
particular every ledger balance) unchanged. -/
theorem C1_settlement_at_most_once (G : Globals) (now midnight : Int) (u : String)
    (req : MatchResultRequest) (s : ServerState) :
    ((RpcSubmitMatchResult G now midnight u req s).fst.isOk = true →
      readActiveMatch (RpcSubmitMatchResult G now midnight u req s).snd u = none ∧
      readMatchHistory (RpcSubmitMatchResult G now midnight u req s).snd u =
        some { LastMatchTime := now }) ∧
    (∀ (t t2 : Int) (req2 : MatchResultRequest) (s2 : ServerState),
      readActiveMatch s2 u = none →
      readMatchHistory s2 u = some { LastMatchTime := t } →
      RpcSubmitMatchResult G t2 midnight u req2 s2 =
        (.error (if t2 - t < minRateLimitMs then .rateLimitExceeded else .noActiveMatch), s2)) := by
  constructor
  · intro hok
    unfold RpcSubmitMatchResult at hok ⊢
    cases hrl : checkMatchRateLimit now s u with
    | some e =>
      rw [hrl] at hok
      exact Bool.noConfusion hok
    | none =>
      rw [hrl] at hok
      dsimp only at hok ⊢
      rcases hva : validateActiveMatch now u (validateRounds req).MatchID s with ⟨va, s1⟩
      try rw [hva] at hok
      try rw [hva]
      cases va with
      | error e => exact Bool.noConfusion hok
      | ok am =>
        dsimp only at hok ⊢
        by_cases hc1 : ValidateItemExists G.gd storageKeyPet (validateRounds req).EquippedPetID = true
        · rw [if_neg (fun hh => hh hc1)] at hok ⊢
          by_cases hc2 : ValidateItemExists G.gd storageKeyClass (validateRounds req).EquippedClassID = true
          · rw [if_neg (fun hh => hh hc2)] at hok ⊢
            dsimp only
            exact processMatchRewards_post G now midnight u _ _ _
          · rw [if_pos hc2] at hok
            exact Bool.noConfusion hok
        · rw [if_pos hc1] at hok
          exact Bool.noConfusion hok
  · intro t t2 req2 s2 hact hhist
    unfold RpcSubmitMatchResult checkMatchRateLimit
    rw [hhist]
    by_cases hlt : t2 - t < minRateLimitMs
    · simp [hlt]
    · simp only [if_neg hlt]
      unfold validateActiveMatch
      rw [hact]

/-- Witness for `C1_settlement_at_most_once`: the concrete solo
scenario; the first call at 20 s succeeds and settles, and a retry at
21 s against the settled state is rejected by the rate limit with the
state unchanged. -/
theorem C1_settlement_at_most_once_witness :
    ((RpcSubmitMatchResult GC 20000 0 "alice" reqC sC).fst.isOk = true ∧
      readActiveMatch (RpcSubmitMatchResult GC 20000 0 "alice" reqC sC).snd "alice" = none ∧
      readMatchHistory (RpcSubmitMatchResult GC 20000 0 "alice" reqC sC).snd "alice" =
        some { LastMatchTime := 20000 }) ∧
    RpcSubmitMatchResult GC 21000 0 "alice" reqC
        (RpcSubmitMatchResult GC 20000 0 "alice" reqC sC).snd =
      (.error (if (21000 : Int) - 20000 < minRateLimitMs then Err.rateLimitExceeded
               else Err.noActiveMatch),
        (RpcSubmitMatchResult GC 20000 0 "alice" reqC sC).snd) :=
  have hmain := C1_settlement_at_most_once GC 20000 0 "alice" reqC sC
  have hone := hmain.1 (by decide)
  ⟨⟨by decide, hone.1, hone.2⟩,
    hmain.2 20000 21000 reqC (RpcSubmitMatchResult GC 20000 0 "alice" reqC sC).snd hone.1 hone.2⟩

/-- C3, counterexample: under the natural sequential schedule — Alice
submits her win claim fully, then Bob submits his — the two submitters
do NOT both receive the "conflict" role: the first submitter finds no
opponent record and is classified "pending", and only the second is
classified "conflict".  This refutes the claim's "both receive
conflict" for sequential double-win submissions. -/
theorem C3_sequential_counterexample :
    (resolveMatchConsensus 0 emptyState "alice" "bob" "m1" true 3).fst = "pending" ∧
    (resolveMatchConsensus 0 (resolveMatchConsensus 0 emptyState "alice" "bob" "m1" true 3).snd
        "bob" "alice" "m1" true 4).fst = "conflict" ∧
    (resolveMatchConsensus 0 emptyState "alice" "bob" "m1" true 3).fst ≠ "conflict" := by
  refine ⟨?_, ?_, ?_⟩ <;> decide

/-- C3, amended: both submitters receive the "conflict" role exactly
under the interleaved schedule in which each player's own-claim write
lands before either player's opponent-record read (the write-first
protocol makes this the intended concurrent double-win outcome); in
the conflict role the reward step runs with the claimed win voided
(`actualWonOf "conflict" w = false` for every `w`), so the XP
component is the loss XP, not the win XP; and the round-history token
earnings are computed from the round records alone, unchanged by
voiding the `Won` flag — they are not zeroed. -/
theorem C3_double_win_conflict (now : Int) (s : ServerState) (a b m : String)
    (sa sb : Int) (hab : a ≠ b) :
    (consensusResolve now (writeOwnClaim now (writeOwnClaim now s a m true sa) b m true sb)
        a b m true sa).fst = "conflict" ∧
    (consensusResolve now
        (consensusResolve now (writeOwnClaim now (writeOwnClaim now s a m true sa) b m true sb)
          a b m true sa).snd
        b a m true sb).fst = "conflict" ∧
    (∀ w : Bool, actualWonOf "conflict" w = false) ∧
    (∀ (G : Globals) (n2 mid : Int) (u : String) (req : MatchResultRequest) (s2 : ServerState),
      req.Won = false →
      ∃ pd, (matchRewardsPrepare G n2 mid u req false s2).snd.snd.Progression = some pd ∧
        pd.XpGranted = some G.matchConfig.LossXP) ∧
    (∀ (req : MatchResultRequest) (isSolo : Bool) (cfg : MatchConfig),
      computeTokensEarned { req with Won := false } isSolo cfg =
        computeTokensEarned req isSolo cfg) := by
  have h1 : consensusResolve now (writeOwnClaim now (writeOwnClaim now s a m true sa) b m true sb)
      a b m true sa
      = ("conflict", writeOwnClaim now (writeOwnClaim now s a m true sa) b m true sb) := by
    unfold consensusResolve
    rw [readMatchResult_writeOwn_same]
    rfl
  refine ⟨by rw [h1], ?_, ?_, ?_, ?_⟩
  · rw [h1]
    unfold consensusResolve
    rw [readMatchResult_writeOwn_other _ _ _ _ _ _ _ _ hab, readMatchResult_writeOwn_same]
    rfl
  · intro w
    rfl
  · intro G n2 mid u req s2 hw
    unfold matchRewardsPrepare
    dsimp only
    rw [hw]
    simp only [Bool.false_eq_true, if_false]
    refine ⟨_, rfl, ?_⟩
    split <;> rfl
  · intro req isSolo cfg
    rfl

/-- Witness for `C3_double_win_conflict`: Alice and Bob on match "m1",
both claiming a win under the interleaved schedule, at time 0 from the
empty store: Alice's resolve step yields "conflict". -/
theorem C3_double_win_conflict_witness :
    ("alice" : String) ≠ "bob" ∧
    (consensusResolve 0 (writeOwnClaim 0 (writeOwnClaim 0 emptyState "alice" "m1" true 3)
        "bob" "m1" true 4) "alice" "bob" "m1" true 3).fst = "conflict" :=
  ⟨by decide, (C3_double_win_conflict 0 emptyState "alice" "bob" "m1" 3 4 (by decide)).1⟩
